import Mathlib

/-!
Verification of the PBS cluster utilization tools (clusterstats.py and
rescheck.py) against their natural-language specification.

Strings are modelled as `List Char`.  Python `float` values are modelled as
rationals: every scale factor appearing in the code is a power of two, so
binary floating point computes these scalings exactly and the rational model
is faithful for the properties stated here.  Python exceptions are modelled
by `Option`: a function that can raise returns `none` on the raising inputs.

Python's `str.lower`/`str.upper` are modelled by `Char.toLower`/`Char.toUpper`
(the ASCII case maps; the node names, states and queue names these tools
consume are ASCII).
-/

namespace PBS

/-- Strings are lists of characters. -/
abbrev Str := List Char

/-- Convert a Lean string literal into the model's string type. -/
def ofStr (s : String) : Str := s.toList

/-- ASCII whitespace, as stripped by Python's `str.strip`/`str.rstrip`
(space, tab, newline, carriage return, vertical tab, form feed). -/
def pySpace (c : Char) : Bool :=
  c = ' ' || c = '\t' || c = '\n' || c = '\r' || c = Char.ofNat 11 || c = Char.ofNat 12

/-- Python `str.strip()`: remove whitespace from both ends. -/
def pyStrip (s : Str) : Str :=
  ((s.dropWhile pySpace).reverse.dropWhile pySpace).reverse

/-- Python `str.rstrip()`: remove whitespace from the right end. -/
def pyRstrip (s : Str) : Str :=
  (s.reverse.dropWhile pySpace).reverse

/-- Python `str.lower()` (ASCII case map). -/
def pyLower (s : Str) : Str := s.map Char.toLower

/-- Python `str.upper()` (ASCII case map). -/
def pyUpper (s : Str) : Str := s.map Char.toUpper

/-- ASCII decimal digit test. -/
def pyDigit (c : Char) : Bool := 48 ≤ c.toNat && c.toNat ≤ 57

/-- Numeric value of a list of ASCII digits (underscore separators already
removed). -/
def digitsVal (ds : Str) : ℕ := ds.foldl (fun a c => 10 * a + (c.toNat - 48)) 0

/-- After the first digit of a digit group, Python numeric literals allow
further digits, with a single underscore permitted only between two digits. -/
def digitsTail : Str → Bool
  | [] => true
  | '_' :: c :: r => pyDigit c && digitsTail r
  | '_' :: [] => false
  | c :: r => pyDigit c && digitsTail r

/-- A nonempty digit group: a digit followed by a valid digit tail. -/
def digitGroup : Str → Bool
  | [] => false
  | c :: r => pyDigit c && digitsTail r

/-- Strip an optional leading sign, returning the sign as `1` or `-1`. -/
def pySign : Str → ℤ × Str
  | '+' :: r => (1, r)
  | '-' :: r => (-1, r)
  | r => (1, r)

/-- Value of a digit group with its underscore separators removed. -/
def groupVal (ds : Str) : ℕ := digitsVal (ds.filter (fun c => c ≠ '_'))

/-- Model of Python's `int(str)` builtin on finite decimal text: strips
whitespace, accepts an optional sign and a nonempty digit group.  Returns
`none` where `int` raises `ValueError`. -/
def pyInt (s : Str) : Option ℤ :=
  let p := pySign (pyStrip s)
  if digitGroup p.2 then some (p.1 * (groupVal p.2 : ℤ)) else none

/-- Python slicing `s[:-k]`: drop the last `k` characters. -/
def pyCut (s : Str) (k : ℕ) : Str := s.take (s.length - k)

/-- Split a string at the first character satisfying `p`: the part before it,
and (when such a character exists) the part after it. -/
def splitFirst (p : Char → Bool) (s : Str) : Str × Option Str :=
  let pre := s.takeWhile (fun c => !(p c))
  let post := s.dropWhile (fun c => !(p c))
  match post with
  | [] => (pre, none)
  | _ :: r => (pre, some r)

/-- Mantissa of a float literal: `digits`, `digits.`, `digits.digits` or
`.digits`.  Returns the rational value, or `none` when malformed. -/
def pyFloatMantissa (m : Str) : Option ℚ :=
  let ip := (splitFirst (fun c => c = '.') m).1
  match (splitFirst (fun c => c = '.') m).2 with
  | none => if digitGroup ip then some (groupVal ip : ℚ) else none
  | some fp =>
    if digitGroup ip ∧ (fp = [] ∨ digitGroup fp) then
      some ((groupVal ip : ℚ) +
        (groupVal fp : ℚ) / 10 ^ (fp.filter (fun c => c ≠ '_')).length)
    else if ip = [] ∧ digitGroup fp then
      some ((groupVal fp : ℚ) / 10 ^ (fp.filter (fun c => c ≠ '_')).length)
    else none

/-- Model of Python's `float(str)` builtin on finite decimal literals:
strips whitespace, then `sign? mantissa (e sign? digits)?`.  Returns `none`
where `float` raises `ValueError`.  (The `inf`/`nan` literals are outside
the model; no claim involves them.) -/
def pyFloat (s : Str) : Option ℚ :=
  let p := pySign (pyStrip s)
  let me := splitFirst (fun c => c = 'e' || c = 'E') p.2
  match pyFloatMantissa me.1 with
  | none => none
  | some mant =>
    match me.2 with
    | none => some ((p.1 : ℚ) * mant)
    | some ex =>
      let ep := pySign ex
      if digitGroup ep.2 then
        if ep.1 = 1 then some ((p.1 : ℚ) * mant * 10 ^ groupVal ep.2)
        else some ((p.1 : ℚ) * mant / 10 ^ groupVal ep.2)
      else none

/-- The set of monitored batch queues (`MONITORED_QUEUES`, identical in
clusterstats.py and rescheck.py). -/
def MONITORED_QUEUES : Finset Str :=
  {ofStr "smallq", ofStr "mediumq", ofStr "largeq", ofStr "expressq",
   ofStr "bigmemq", ofStr "commercialq", ofStr "specialq", ofStr "benchmarkq"}

/-- The set of queue names advertised by a `Qlist` string:
`set(qlist.split(','))` followed by stripping each entry and discarding
empties (the comprehension at clusterstats.py lines 98-99 and
rescheck.py lines 102-103). -/
def queueSetOf (qlist : Str) : Finset Str :=
  (((List.splitOn ',' qlist).map pyStrip).filter (fun q => q ≠ [])).toFinset

/-- `count_unique_jobs` (identical in clusterstats.py lines 60-76 and
rescheck.py lines 58-74): split the jobs string on commas, strip entries,
drop empty ones, and keep everything before the first `/` of each entry
(`job_entry.split('/')[0]`, which is `takeWhile (· ≠ '/')`). -/
def count_unique_jobs (jobs_str : Str) : Finset Str :=
  if jobs_str = [] then ∅
  else
    let entries := ((List.splitOn ',' jobs_str).map pyStrip).filter (fun j => j ≠ [])
    entries.foldl
      (fun acc e =>
        insert (if '/' ∈ e then e.takeWhile (fun c => c ≠ '/') else e) acc) ∅

/-- A node record: the `name`-keyed dictionary built by
`parse_pbsnodes_output`.  Later writes to the same attribute key overwrite
earlier ones, as in a Python dict. -/
structure Node where
  name : Str
  attrs : List (Str × Str)
deriving DecidableEq

/-- Dictionary lookup `node.get(k)` on the attribute map. -/
def dictGet (n : Node) (k : Str) : Option Str :=
  (n.attrs.find? (fun p => p.1 = k)).map (fun p => p.2)

/-- Dictionary write `node[k] = v`: overwrite any previous binding. -/
def dictSet (n : Node) (k v : Str) : Node :=
  ⟨n.name, n.attrs.filter (fun p => p.1 ≠ k) ++ [(k, v)]⟩

/-- Does the line start with a space or a tab (`line.startswith(' ') or
line.startswith('\t')`)? -/
def lineIndented (l : Str) : Bool :=
  match l with
  | c :: _ => c = ' ' || c = '\t'
  | [] => false

/-- Python `line.split('=', 1)`: the part before the first `=` and the part
after it. -/
def splitEq (l : Str) : Str × Str :=
  (l.takeWhile (fun c => c ≠ '='), (l.dropWhile (fun c => c ≠ '=')).tail)

/-- One iteration of the line loop in `parse_pbsnodes_output`
(clusterstats.py lines 175-194, identical in rescheck.py lines 160-179).
State: the finished node list and the node currently being built. -/
def parseLine (st : List Node × Option Node) (l : Str) : List Node × Option Node :=
  let line := pyRstrip l
  if line = [] then st
  else if ¬ lineIndented line = true then
    match st.2 with
    | some cur => (st.1 ++ [cur], some ⟨pyStrip line, []⟩)
    | none => (st.1, some ⟨pyStrip line, []⟩)
  else
    match st.2 with
    | none => st
    | some cur =>
      let stripped := pyStrip line
      if '=' ∈ stripped then
        let kv := splitEq stripped
        (st.1, some (dictSet cur (pyStrip kv.1) (pyStrip kv.2)))
      else st

/-- The line loop of `parse_pbsnodes_output` over an already-split line
list. -/
def parseLines (lines : List Str) : List Node × Option Node :=
  lines.foldl parseLine ([], none)

/-- `parse_pbsnodes_output` (clusterstats.py lines 169-200, identical in
rescheck.py lines 154-185): strip the content, split on newlines, run the
line loop and append the node still being built at the end. -/
def parse_pbsnodes_output (content : Str) : List Node :=
  let st := parseLines (List.splitOn '\n' (pyStrip content))
  st.1 ++ st.2.toList

/-- The per-pool counters for regular compute nodes
(`stats['compute']`). -/
@[ext]
structure ComputeStats where
  included_nodes : ℕ
  offline_nodes : ℕ
  cores_available : ℤ
  cores_assigned : ℤ
  memory_available_mb : ℚ
  memory_assigned_mb : ℚ
  unique_jobs : Finset Str

/-- The per-pool counters for GPU nodes (`stats['gpu']`). -/
@[ext]
structure GpuStats where
  included_nodes : ℕ
  offline_nodes : ℕ
  cpu_cores_available : ℤ
  cpu_cores_assigned : ℤ
  gpu_devices_available : ℤ
  gpu_devices_assigned : ℤ
  memory_available_mb : ℚ
  memory_assigned_mb : ℚ
  unique_jobs : Finset Str

/-- The whole `stats` dictionary of `analyze_cluster`.  The two defaultdict
ledgers are modelled as total functions from reason tags. -/
@[ext]
structure Stats where
  compute : ComputeStats
  gpu : GpuStats
  total_nodes : ℕ
  excluded_counts : Str → ℕ
  excluded_nodes : Str → List Str

/-- The initial `stats['compute']` dictionary: all counters zero. -/
def initComputeStats : ComputeStats := ⟨0, 0, 0, 0, 0, 0, ∅⟩

/-- The initial `stats['gpu']` dictionary: all counters zero. -/
def initGpuStats : GpuStats := ⟨0, 0, 0, 0, 0, 0, 0, 0, ∅⟩

/-- The initial `stats` dictionary. -/
def initStats : Stats := ⟨initComputeStats, initGpuStats, 0, fun _ => 0, fun _ => []⟩

/-- `node.get('state', 'unknown')`. -/
def nodeState (n : Node) : Str := (dictGet n (ofStr "state")).getD (ofStr "unknown")

/-- `node.get('resources_available.Qlist', '')`. -/
def nodeQlist (n : Node) : Str := (dictGet n (ofStr "resources_available.Qlist")).getD []

/-- `node.get('resources_available.vntype', '')`. -/
def nodeVntype (n : Node) : Str := (dictGet n (ofStr "resources_available.vntype")).getD []

/-- `node.get('jobs', '')`. -/
def nodeJobsStr (n : Node) : Str := (dictGet n (ofStr "jobs")).getD []


/-- Pointwise sum of two compute-pool accumulators (proof infrastructure
for the additivity statements). -/
def addC (a b : ComputeStats) : ComputeStats :=
  ⟨a.included_nodes + b.included_nodes, a.offline_nodes + b.offline_nodes,
   a.cores_available + b.cores_available, a.cores_assigned + b.cores_assigned,
   a.memory_available_mb + b.memory_available_mb,
   a.memory_assigned_mb + b.memory_assigned_mb,
   a.unique_jobs ∪ b.unique_jobs⟩

/-- Pointwise sum of two GPU-pool accumulators. -/
def addG (a b : GpuStats) : GpuStats :=
  ⟨a.included_nodes + b.included_nodes, a.offline_nodes + b.offline_nodes,
   a.cpu_cores_available + b.cpu_cores_available,
   a.cpu_cores_assigned + b.cpu_cores_assigned,
   a.gpu_devices_available + b.gpu_devices_available,
   a.gpu_devices_assigned + b.gpu_devices_assigned,
   a.memory_available_mb + b.memory_available_mb,
   a.memory_assigned_mb + b.memory_assigned_mb,
   a.unique_jobs ∪ b.unique_jobs⟩

/-- Pointwise sum of two whole accumulators: ledgers add pointwise and
name lists concatenate. -/
def addStats (a b : Stats) : Stats :=
  ⟨addC a.compute b.compute, addG a.gpu b.gpu, a.total_nodes + b.total_nodes,
   fun t => a.excluded_counts t + b.excluded_counts t,
   fun t => a.excluded_nodes t ++ b.excluded_nodes t⟩

/-- The distinct-job set contributed by one node. -/
def nodeJobs (n : Node) : Finset Str := count_unique_jobs (nodeJobsStr n)

/-- Union of the distinct-job sets of a list of nodes. -/
def unionJobs (l : List Node) : Finset Str :=
  (l.map nodeJobs).foldr (fun a b => a ∪ b) ∅

/-- A line of the block format that starts a new node record: non-blank
after right-stripping and not indented. -/
def isNodeHeader (l : Str) : Bool :=
  decide (pyRstrip l ≠ []) && !(lineIndented (pyRstrip l))

end PBS

namespace Clusterstats

open PBS

/-- `parse_memory_value` from clusterstats.py lines 27-47.  Returns `none`
exactly where the Python function raises `ValueError` (a recognized unit
suffix whose magnitude does not parse as a float: only the unsuffixed branch
is inside a `try`/`except`). -/
def parse_memory_value (mem_str : Str) : Option ℚ :=
  if mem_str = [] ∨ mem_str = ofStr "<various>" then some 0
  else
    let m := pyLower (pyStrip mem_str)
    if ofStr "mb" <:+ m then pyFloat (pyCut m 2)
    else if ofStr "kb" <:+ m then (pyFloat (pyCut m 2)).map (fun v => v / 1024)
    else if ofStr "gb" <:+ m then (pyFloat (pyCut m 2)).map (fun v => v * 1024)
    else if ofStr "b" <:+ m then (pyFloat (pyCut m 1)).map (fun v => v / (1024 * 1024))
    else
      match pyFloat m with
      | some v => some (v / (1024 * 1024))
      | none => some 0

/-- `safe_int_parse` from clusterstats.py lines 49-58, at string arguments
(the only values the scripts feed it besides the falsy default `0`, which it
returns unchanged). -/
def safe_int_parse (value : Str) (dflt : ℤ) : ℤ :=
  if value = [] ∨ value = ofStr "<various>" ∨ value = ofStr "various" then dflt
  else if pyStrip value = [] then dflt
  else (pyInt value).getD dflt

/-- `should_include_node` from clusterstats.py lines 78-117. -/
def should_include_node (node_name state qlist vntype : Str) : Bool × Str × Str :=
  let state_str := pyUpper state
  if ofStr "DOWN" <:+: state_str ∨ ofStr "OFFLINE" <:+: state_str then
    (false, ofStr "down_offline", ofStr "unknown")
  else if ¬ (vntype = ofStr "compute_vnode" ∨ vntype = ofStr "gpu_vnode") then
    (false, ofStr "not_compute_vnode", ofStr "unknown")
  else if qlist ≠ [] then
    let node_queues := queueSetOf qlist
    if ofStr "gpuq" ∈ node_queues then (true, ofStr "included", ofStr "gpu")
    else if MONITORED_QUEUES ∩ node_queues ≠ ∅ then
      (true, ofStr "included", ofStr "compute")
    else (false, ofStr "no_monitored_queues", ofStr "compute")
  else (true, ofStr "included", ofStr "compute")

/-- A safely parsed integer attribute: `safe_int_parse(node.get(k, 0))`.
When the key is absent the Python default `0` is falsy, so `safe_int_parse`
returns its default `0` unchanged. -/
def nodeInt (n : Node) (k : Str) : ℤ :=
  match dictGet n k with
  | none => 0
  | some s => safe_int_parse s 0

/-- A parsed memory attribute: `parse_memory_value(node.get(k, '0'))`.
`none` models a `ValueError` escaping `parse_memory_value`. -/
def nodeMem (n : Node) (k : Str) : Option ℚ :=
  parse_memory_value ((dictGet n k).getD (ofStr "0"))

/-- The body of the per-node loop of `analyze_cluster` (clusterstats.py
lines 238-309).  Returns `none` when the iteration raises (a memory
attribute of an included node fails to parse). -/
def analyze_step (stats : Stats) (node : Node) : Option Stats :=
  let stats1 : Stats := { stats with total_nodes := stats.total_nodes + 1 }
  let qlist := nodeQlist node
  let r := should_include_node node.name (nodeState node) qlist (nodeVntype node)
  if r.2.1 = ofStr "down_offline" then
    if qlist ≠ [] then
      if ofStr "gpuq" ∈ queueSetOf qlist then
        some { stats1 with gpu := { stats1.gpu with offline_nodes := stats1.gpu.offline_nodes + 1 } }
      else
        some { stats1 with compute := { stats1.compute with offline_nodes := stats1.compute.offline_nodes + 1 } }
    else
      some { stats1 with compute := { stats1.compute with offline_nodes := stats1.compute.offline_nodes + 1 } }
  else if r.1 = false then
    some { stats1 with
      excluded_counts := fun t =>
        if t = r.2.1 then stats1.excluded_counts t + 1 else stats1.excluded_counts t,
      excluded_nodes := fun t =>
        if t = r.2.1 then stats1.excluded_nodes t ++ [node.name] else stats1.excluded_nodes t }
  else
    match nodeMem node (ofStr "resources_available.mem"),
          nodeMem node (ofStr "resources_assigned.mem") with
    | some mav, some mas =>
      let ncav := nodeInt node (ofStr "resources_available.ncpus")
      let ncas := nodeInt node (ofStr "resources_assigned.ncpus")
      let jobs := count_unique_jobs (nodeJobsStr node)
      if r.2.2 = ofStr "gpu" then
        some { stats1 with gpu := { stats1.gpu with
          included_nodes := stats1.gpu.included_nodes + 1,
          cpu_cores_available := stats1.gpu.cpu_cores_available + ncav,
          cpu_cores_assigned := stats1.gpu.cpu_cores_assigned + ncas,
          memory_available_mb := stats1.gpu.memory_available_mb + mav,
          memory_assigned_mb := stats1.gpu.memory_assigned_mb + mas,
          unique_jobs := stats1.gpu.unique_jobs ∪ jobs,
          gpu_devices_available :=
            stats1.gpu.gpu_devices_available + nodeInt node (ofStr "resources_available.ngpus"),
          gpu_devices_assigned :=
            stats1.gpu.gpu_devices_assigned + nodeInt node (ofStr "resources_assigned.ngpus") } }
      else
        some { stats1 with compute := { stats1.compute with
          included_nodes := stats1.compute.included_nodes + 1,
          cores_available := stats1.compute.cores_available + ncav,
          cores_assigned := stats1.compute.cores_assigned + ncas,
          memory_available_mb := stats1.compute.memory_available_mb + mav,
          memory_assigned_mb := stats1.compute.memory_assigned_mb + mas,
          unique_jobs := stats1.compute.unique_jobs ∪ jobs } }
    | _, _ => none

/-- `analyze_cluster` (clusterstats.py lines 202-311) on an already-parsed
node list (`run_pbsnodes` is external process invocation, outside the
core).  `none` models an uncaught exception during the pass. -/
def analyze_cluster (nodes : List Node) : Option Stats :=
  nodes.foldlM analyze_step initStats

/-- The ANSI color constants of the `Colors` class. -/
def GREEN : Str := ofStr "\x1b[92m"

/-- The ANSI yellow constant of the `Colors` class. -/
def YELLOW : Str := ofStr "\x1b[93m"

/-- The ANSI red constant of the `Colors` class. -/
def RED : Str := ofStr "\x1b[91m"

/-- `get_color_for_utilization` (clusterstats.py lines 119-126). -/
def get_color_for_utilization (percentage : ℚ) : Str :=
  if percentage < 50 then GREEN
  else if percentage ≤ 70 then YELLOW
  else RED

/-- The numeric and color content that `calculate_utilization_display`
interpolates into its display string: color code (absent in the
zero-capacity branch), the used and total figures shown, and the
percentage. -/
structure UtilDisplay where
  color : Option Str
  used : ℚ
  total : ℚ
  percent : ℚ
deriving DecidableEq

/-- `calculate_utilization_display` (clusterstats.py lines 128-141),
abstracting the f-string rendering: the record holds the numbers and color
the format string interpolates (`resource_name` only selects the wording of
the template). -/
def calculate_utilization_display (assigned available : ℚ) : UtilDisplay :=
  if available > 0 then
    let util_percent := assigned / available * 100
    ⟨some (get_color_for_utilization util_percent), assigned, available, util_percent⟩
  else
    ⟨none, 0, 0, 0⟩

end Clusterstats

namespace Rescheck

open PBS

/-- `parse_memory_value` from rescheck.py lines 27-47: as in clusterstats
but without the `'<various>'` guard.  Returns `none` exactly where the
Python function raises `ValueError`. -/
def parse_memory_value (mem_str : Str) : Option ℚ :=
  if mem_str = [] then some 0
  else
    let m := pyLower (pyStrip mem_str)
    if ofStr "mb" <:+ m then pyFloat (pyCut m 2)
    else if ofStr "kb" <:+ m then (pyFloat (pyCut m 2)).map (fun v => v / 1024)
    else if ofStr "gb" <:+ m then (pyFloat (pyCut m 2)).map (fun v => v * 1024)
    else if ofStr "b" <:+ m then (pyFloat (pyCut m 1)).map (fun v => v / (1024 * 1024))
    else
      match pyFloat m with
      | some v => some (v / (1024 * 1024))
      | none => some 0

/-- `safe_int_parse` from rescheck.py lines 49-56, at string arguments. -/
def safe_int_parse (value : Str) (dflt : ℤ) : ℤ :=
  if value = [] ∨ value = ofStr "<various>" then dflt
  else (pyInt value).getD dflt

/-- `is_gpu_node` from rescheck.py lines 76-78. -/
def is_gpu_node (node_name : Str) : Bool :=
  decide ('g' ∈ pyLower node_name)

/-- `should_include_node` from rescheck.py lines 80-117. -/
def should_include_node (node_name state qlist vntype : Str) : Bool × Str × Str :=
  let node_type := if is_gpu_node node_name then ofStr "gpu" else ofStr "compute"
  let state_str := pyUpper state
  if ofStr "DOWN" <:+: state_str ∨ ofStr "OFFLINE" <:+: state_str then
    (false, ofStr "down_offline", node_type)
  else if ¬ (vntype = ofStr "compute_vnode" ∨ vntype = ofStr "gpu_vnode") then
    (false, ofStr "not_compute_vnode", node_type)
  else if ¬ is_gpu_node node_name = true ∧ qlist ≠ [] then
    let node_queues := queueSetOf qlist
    if ofStr "interactiveq" ∈ node_queues then (false, ofStr "interactive", node_type)
    else if ofStr "classq" ∈ node_queues then (false, ofStr "class", node_type)
    else if ofStr "sysadminq" ∈ node_queues ∧ MONITORED_QUEUES ∩ node_queues = ∅ then
      (false, ofStr "admin", node_type)
    else if MONITORED_QUEUES ∩ node_queues = ∅ then
      (false, ofStr "other_excluded", node_type)
    else (true, ofStr "included", node_type)
  else (true, ofStr "included", node_type)

/-- A safely parsed integer attribute: `safe_int_parse(node.get(k, 0))`. -/
def nodeInt (n : Node) (k : Str) : ℤ :=
  match dictGet n k with
  | none => 0
  | some s => safe_int_parse s 0

/-- A parsed memory attribute: `parse_memory_value(node.get(k, '0'))`. -/
def nodeMem (n : Node) (k : Str) : Option ℚ :=
  parse_memory_value ((dictGet n k).getD (ofStr "0"))

/-- The body of the per-node loop of `analyze_cluster` (rescheck.py lines
222-280).  Differs from the clusterstats variant in the classifier used and
in attributing offline nodes by the classifier node type. -/
def analyze_step (stats : Stats) (node : Node) : Option Stats :=
  let stats1 : Stats := { stats with total_nodes := stats.total_nodes + 1 }
  let r := should_include_node node.name (nodeState node) (nodeQlist node) (nodeVntype node)
  if r.2.1 = ofStr "down_offline" then
    if r.2.2 = ofStr "gpu" then
      some { stats1 with gpu := { stats1.gpu with offline_nodes := stats1.gpu.offline_nodes + 1 } }
    else
      some { stats1 with compute := { stats1.compute with offline_nodes := stats1.compute.offline_nodes + 1 } }
  else if r.1 = false then
    some { stats1 with
      excluded_counts := fun t =>
        if t = r.2.1 then stats1.excluded_counts t + 1 else stats1.excluded_counts t,
      excluded_nodes := fun t =>
        if t = r.2.1 then stats1.excluded_nodes t ++ [node.name] else stats1.excluded_nodes t }
  else
    match nodeMem node (ofStr "resources_available.mem"),
          nodeMem node (ofStr "resources_assigned.mem") with
    | some mav, some mas =>
      let ncav := nodeInt node (ofStr "resources_available.ncpus")
      let ncas := nodeInt node (ofStr "resources_assigned.ncpus")
      let jobs := count_unique_jobs (nodeJobsStr node)
      if r.2.2 = ofStr "gpu" then
        some { stats1 with gpu := { stats1.gpu with
          included_nodes := stats1.gpu.included_nodes + 1,
          cpu_cores_available := stats1.gpu.cpu_cores_available + ncav,
          cpu_cores_assigned := stats1.gpu.cpu_cores_assigned + ncas,
          memory_available_mb := stats1.gpu.memory_available_mb + mav,
          memory_assigned_mb := stats1.gpu.memory_assigned_mb + mas,
          unique_jobs := stats1.gpu.unique_jobs ∪ jobs,
          gpu_devices_available :=
            stats1.gpu.gpu_devices_available + nodeInt node (ofStr "resources_available.ngpus"),
          gpu_devices_assigned :=
            stats1.gpu.gpu_devices_assigned + nodeInt node (ofStr "resources_assigned.ngpus") } }
      else
        some { stats1 with compute := { stats1.compute with
          included_nodes := stats1.compute.included_nodes + 1,
          cores_available := stats1.compute.cores_available + ncav,
          cores_assigned := stats1.compute.cores_assigned + ncas,
          memory_available_mb := stats1.compute.memory_available_mb + mav,
          memory_assigned_mb := stats1.compute.memory_assigned_mb + mas,
          unique_jobs := stats1.compute.unique_jobs ∪ jobs } }
    | _, _ => none

/-- `analyze_cluster` (rescheck.py lines 187-282) on an already-parsed node
list. -/
def analyze_cluster (nodes : List Node) : Option Stats :=
  nodes.foldlM analyze_step initStats

/-- The repeated utilization display pattern of `print_utilization_report`
(rescheck.py lines 294-306, 314-333): each of the five report lines
computes `assigned / available * 100` with a color when `available > 0` and
otherwise shows the fixed `0 used / 0 total (0.0%)` text.  As in the
clusterstats variant, the record holds the interpolated numeric content. -/
def utilization_line (assigned available : ℚ) : Clusterstats.UtilDisplay :=
  if available > 0 then
    let util := assigned / available * 100
    ⟨some (Clusterstats.get_color_for_utilization util), assigned, available, util⟩
  else
    ⟨none, 0, 0, 0⟩


end Rescheck

namespace Clusterstats

open PBS

/-- The classification triple `should_include_node` assigns to a parsed
node record, at the attribute defaults used in `analyze_cluster`. -/
def classifyNode (n : Node) : Bool × Str × Str :=
  should_include_node n.name (nodeState n) (nodeQlist n) (nodeVntype n)

/-- Is the node classified into the general-compute pool? -/
def inComputePool (n : Node) : Bool :=
  decide ((classifyNode n).1 = true ∧ (classifyNode n).2.2 = ofStr "compute")

/-- Is the node classified into the GPU pool? -/
def inGpuPool (n : Node) : Bool :=
  decide ((classifyNode n).1 = true ∧ (classifyNode n).2.2 = ofStr "gpu")

/-- Available CPU cores of a node, as `analyze_cluster` parses them. -/
def ncpusAvail (n : Node) : ℤ := nodeInt n (ofStr "resources_available.ncpus")

/-- Assigned CPU cores of a node. -/
def ncpusAssigned (n : Node) : ℤ := nodeInt n (ofStr "resources_assigned.ncpus")

/-- Available GPU devices of a node. -/
def ngpusAvail (n : Node) : ℤ := nodeInt n (ofStr "resources_available.ngpus")

/-- Assigned GPU devices of a node. -/
def ngpusAssigned (n : Node) : ℤ := nodeInt n (ofStr "resources_assigned.ngpus")

/-- Available memory of a node in MB (0 stands in for the value on nodes
whose memory attribute fails to parse; aggregation theorems are stated for
passes in which no included attribute fails, so the stand-in never hides a
value there). -/
def memAvail (n : Node) : ℚ := (nodeMem n (ofStr "resources_available.mem")).getD 0

/-- Assigned memory of a node in MB. -/
def memAssigned (n : Node) : ℚ := (nodeMem n (ofStr "resources_assigned.mem")).getD 0

end Clusterstats

namespace Rescheck

open PBS

/-- The classification triple rescheck's `should_include_node` assigns to a
parsed node record. -/
def classifyNode (n : Node) : Bool × Str × Str :=
  should_include_node n.name (nodeState n) (nodeQlist n) (nodeVntype n)

/-- Is the node classified into the general-compute pool? -/
def inComputePool (n : Node) : Bool :=
  decide ((classifyNode n).1 = true ∧ (classifyNode n).2.2 = ofStr "compute")

/-- Is the node classified into the GPU pool? -/
def inGpuPool (n : Node) : Bool :=
  decide ((classifyNode n).1 = true ∧ (classifyNode n).2.2 = ofStr "gpu")

/-- Available CPU cores of a node, as rescheck's `analyze_cluster` parses
them. -/
def ncpusAvail (n : Node) : ℤ := nodeInt n (ofStr "resources_available.ncpus")

/-- Assigned CPU cores of a node. -/
def ncpusAssigned (n : Node) : ℤ := nodeInt n (ofStr "resources_assigned.ncpus")

/-- Available GPU devices of a node. -/
def ngpusAvail (n : Node) : ℤ := nodeInt n (ofStr "resources_available.ngpus")

/-- Assigned GPU devices of a node. -/
def ngpusAssigned (n : Node) : ℤ := nodeInt n (ofStr "resources_assigned.ngpus")

/-- Available memory of a node in MB. -/
def memAvail (n : Node) : ℚ := (nodeMem n (ofStr "resources_available.mem")).getD 0

/-- Assigned memory of a node in MB. -/
def memAssigned (n : Node) : ℚ := (nodeMem n (ofStr "resources_assigned.mem")).getD 0

end Rescheck

namespace QueueModel

open PBS

/-- Modelled from the spec: the Queue Eligibility Resolver (spec sections
3, 4.5) is not present under `src/` — only the monitored-queue names appear
in the two utilization scripts — so its static queue-limit table schema is
modelled from the spec's words: a `QueueSpec` has a `name`, inclusive
maxima `maxCores` and `maxMemoryGB`, an optional inclusive `minMemoryGB`
(the high-memory-only queue), and a `priority`. -/
structure QueueSpec where
  name : Str
  maxCores : ℕ
  maxMemoryGB : ℚ
  minMemoryGB : Option ℚ
  priority : ℤ

/-- Modelled from the spec: a footprint `(requestedCores,
requestedMemoryGB)` is eligible for a queue when it is within the queue's
inclusive maxima and, when the queue configures a minimum memory, at or
above that inclusive minimum (spec sections 4.5 and 8). -/
def eligible (q : QueueSpec) (c : ℕ) (m : ℚ) : Bool :=
  decide (c ≤ q.maxCores) && decide (m ≤ q.maxMemoryGB) &&
    (match q.minMemoryGB with
     | none => true
     | some lo => decide (lo ≤ m))

end QueueModel


namespace PBS

theorem addStats_assoc (a b c : Stats) :
    addStats (addStats a b) c = addStats a (addStats b c) := by
  simp only [addStats, addC, addG]
  ext <;> simp [add_assoc, Finset.union_assoc]

theorem addStats_zero_right (a : Stats) : addStats a initStats = a := by
  simp only [addStats, addC, addG, initStats, initComputeStats, initGpuStats]
  ext <;> simp

theorem foldlM_shift {σ α : Type} (step : σ → α → Option σ) (add : σ → σ → σ) (z : σ)
    (hshift : ∀ s n, step s n = (step z n).map (add s))
    (hassoc : ∀ a b c, add (add a b) c = add a (add b c))
    (hzero : ∀ s, add s z = s) :
    ∀ (l : List α) (s : σ), l.foldlM step s = (l.foldlM step z).map (add s) := by
  intro l
  induction l with
  | nil => intro s; simp [List.foldlM, hzero]
  | cons n l ih =>
    intro s
    rw [List.foldlM_cons, List.foldlM_cons, hshift s n]
    cases hd : step z n with
    | none => simp
    | some d =>
      simp only [Option.map_some', Option.bind_eq_bind, Option.some_bind]
      rw [ih (add s d), ih d, Option.map_map]
      congr 1
      funext t
      simp [Function.comp, hassoc]

end PBS

namespace Clusterstats
open PBS

theorem cs_step_shift (s : Stats) (n : Node) :
    analyze_step s n = (analyze_step initStats n).map (addStats s) := by
  dsimp only [analyze_step]
  by_cases h1 :
      (should_include_node n.name (nodeState n) (nodeQlist n) (nodeVntype n)).2.1
        = ofStr "down_offline"
  · rw [if_pos h1, if_pos h1]
    by_cases h2 : nodeQlist n ≠ []
    · rw [if_pos h2, if_pos h2]
      by_cases h3 : ofStr "gpuq" ∈ queueSetOf (nodeQlist n)
      · rw [if_pos h3, if_pos h3]
        simp only [Option.map_some', Option.some.injEq, addStats, addC, addG,
          initStats, initComputeStats, initGpuStats]
        ext <;> simp
      · rw [if_neg h3, if_neg h3]
        simp only [Option.map_some', Option.some.injEq, addStats, addC, addG,
          initStats, initComputeStats, initGpuStats]
        ext <;> simp
    · rw [if_neg h2, if_neg h2]
      simp only [Option.map_some', Option.some.injEq, addStats, addC, addG,
        initStats, initComputeStats, initGpuStats]
      ext <;> simp
  · rw [if_neg h1, if_neg h1]
    by_cases h4 :
        (should_include_node n.name (nodeState n) (nodeQlist n) (nodeVntype n)).1 = false
    · rw [if_pos h4, if_pos h4]
      simp only [Option.map_some', Option.some.injEq, addStats, addC, addG,
        initStats, initComputeStats, initGpuStats]
      ext t <;> try simp
      · by_cases ht : t = (should_include_node n.name (nodeState n) (nodeQlist n) (nodeVntype n)).2.1 <;>
          simp [ht]
      · by_cases ht : t = (should_include_node n.name (nodeState n) (nodeQlist n) (nodeVntype n)).2.1 <;>
          simp [ht]
    · rw [if_neg h4, if_neg h4]
      cases hma : nodeMem n (ofStr "resources_available.mem") with
      | none =>
        cases hmas : nodeMem n (ofStr "resources_assigned.mem") <;> rfl
      | some mav =>
        cases hmas : nodeMem n (ofStr "resources_assigned.mem") with
        | none => rfl
        | some mas =>
          dsimp only
          by_cases h5 :
              (should_include_node n.name (nodeState n) (nodeQlist n) (nodeVntype n)).2.2
                = ofStr "gpu"
          · rw [if_pos h5, if_pos h5]
            simp only [Option.map_some', Option.some.injEq, addStats, addC, addG,
              initStats, initComputeStats, initGpuStats]
            ext <;> simp
          · rw [if_neg h5, if_neg h5]
            simp only [Option.map_some', Option.some.injEq, addStats, addC, addG,
              initStats, initComputeStats, initGpuStats]
            ext <;> simp

end Clusterstats

namespace Rescheck
open PBS

theorem rs_step_shift (s : Stats) (n : Node) :
    analyze_step s n = (analyze_step initStats n).map (addStats s) := by
  dsimp only [analyze_step]
  by_cases h1 :
      (should_include_node n.name (nodeState n) (nodeQlist n) (nodeVntype n)).2.1
        = ofStr "down_offline"
  · rw [if_pos h1, if_pos h1]
    by_cases h2 :
        (should_include_node n.name (nodeState n) (nodeQlist n) (nodeVntype n)).2.2
          = ofStr "gpu"
    · rw [if_pos h2, if_pos h2]
      simp only [Option.map_some', Option.some.injEq, addStats, addC, addG,
        initStats, initComputeStats, initGpuStats]
      ext <;> simp
    · rw [if_neg h2, if_neg h2]
      simp only [Option.map_some', Option.some.injEq, addStats, addC, addG,
        initStats, initComputeStats, initGpuStats]
      ext <;> simp
  · rw [if_neg h1, if_neg h1]
    by_cases h4 :
        (should_include_node n.name (nodeState n) (nodeQlist n) (nodeVntype n)).1 = false
    · rw [if_pos h4, if_pos h4]
      simp only [Option.map_some', Option.some.injEq, addStats, addC, addG,
        initStats, initComputeStats, initGpuStats]
      ext t <;> try simp
      · by_cases ht : t = (should_include_node n.name (nodeState n) (nodeQlist n) (nodeVntype n)).2.1 <;>
          simp [ht]
      · by_cases ht : t = (should_include_node n.name (nodeState n) (nodeQlist n) (nodeVntype n)).2.1 <;>
          simp [ht]
    · rw [if_neg h4, if_neg h4]
      cases hma : nodeMem n (ofStr "resources_available.mem") with
      | none =>
        cases hmas : nodeMem n (ofStr "resources_assigned.mem") <;> rfl
      | some mav =>
        cases hmas : nodeMem n (ofStr "resources_assigned.mem") with
        | none => rfl
        | some mas =>
          dsimp only
          by_cases h5 :
              (should_include_node n.name (nodeState n) (nodeQlist n) (nodeVntype n)).2.2
                = ofStr "gpu"
          · rw [if_pos h5, if_pos h5]
            simp only [Option.map_some', Option.some.injEq, addStats, addC, addG,
              initStats, initComputeStats, initGpuStats]
            ext <;> simp
          · rw [if_neg h5, if_neg h5]
            simp only [Option.map_some', Option.some.injEq, addStats, addC, addG,
              initStats, initComputeStats, initGpuStats]
            ext <;> simp

theorem rs_foldlM_from (l : List Node) (s : Stats) :
    l.foldlM analyze_step s = (analyze_cluster l).map (addStats s) :=
  foldlM_shift analyze_step addStats initStats rs_step_shift addStats_assoc
    addStats_zero_right l s

theorem rs_analyze_cons (n : Node) (l : List Node) :
    analyze_cluster (n :: l)
      = (analyze_step initStats n).bind (fun d => (analyze_cluster l).map (addStats d)) := by
  show (n :: l).foldlM analyze_step initStats = _
  rw [List.foldlM_cons]
  cases hd : analyze_step initStats n with
  | none => rfl
  | some d =>
    simp only [Option.bind_eq_bind, Option.some_bind]
    exact rs_foldlM_from l d

end Rescheck

namespace Clusterstats
open PBS

theorem cs_foldlM_from (l : List Node) (s : Stats) :
    l.foldlM analyze_step s = (analyze_cluster l).map (addStats s) :=
  foldlM_shift analyze_step addStats initStats cs_step_shift addStats_assoc
    addStats_zero_right l s

theorem cs_analyze_cons (n : Node) (l : List Node) :
    analyze_cluster (n :: l)
      = (analyze_step initStats n).bind (fun d => (analyze_cluster l).map (addStats d)) := by
  show (n :: l).foldlM analyze_step initStats = _
  rw [List.foldlM_cons]
  cases hd : analyze_step initStats n with
  | none => rfl
  | some d =>
    simp only [Option.bind_eq_bind, Option.some_bind]
    exact cs_foldlM_from l d

theorem cs_classify_shape (nm st ql vt : Str) :
    should_include_node nm st ql vt = (false, ofStr "down_offline", ofStr "unknown") ∨
    should_include_node nm st ql vt = (false, ofStr "not_compute_vnode", ofStr "unknown") ∨
    should_include_node nm st ql vt = (true, ofStr "included", ofStr "gpu") ∨
    should_include_node nm st ql vt = (true, ofStr "included", ofStr "compute") ∨
    should_include_node nm st ql vt = (false, ofStr "no_monitored_queues", ofStr "compute") := by
  dsimp only [should_include_node]
  split
  · exact Or.inl rfl
  · split
    · exact Or.inr (Or.inl rfl)
    · split
      · split
        · exact Or.inr (Or.inr (Or.inl rfl))
        · split
          · exact Or.inr (Or.inr (Or.inr (Or.inl rfl)))
          · exact Or.inr (Or.inr (Or.inr (Or.inr rfl)))
      · exact Or.inr (Or.inr (Or.inr (Or.inl rfl)))

end Clusterstats

namespace Rescheck
open PBS

theorem rs_classify_shape (nm st ql vt : Str) :
    should_include_node nm st ql vt
        = (false, ofStr "down_offline", if is_gpu_node nm then ofStr "gpu" else ofStr "compute") ∨
    should_include_node nm st ql vt
        = (false, ofStr "not_compute_vnode", if is_gpu_node nm then ofStr "gpu" else ofStr "compute") ∨
    should_include_node nm st ql vt
        = (false, ofStr "interactive", if is_gpu_node nm then ofStr "gpu" else ofStr "compute") ∨
    should_include_node nm st ql vt
        = (false, ofStr "class", if is_gpu_node nm then ofStr "gpu" else ofStr "compute") ∨
    should_include_node nm st ql vt
        = (false, ofStr "admin", if is_gpu_node nm then ofStr "gpu" else ofStr "compute") ∨
    should_include_node nm st ql vt
        = (false, ofStr "other_excluded", if is_gpu_node nm then ofStr "gpu" else ofStr "compute") ∨
    should_include_node nm st ql vt
        = (true, ofStr "included", if is_gpu_node nm then ofStr "gpu" else ofStr "compute") := by
  dsimp only [should_include_node]
  split
  · exact Or.inl rfl
  · split
    · exact Or.inr (Or.inl rfl)
    · split
      · split
        · exact Or.inr (Or.inr (Or.inl rfl))
        · split
          · exact Or.inr (Or.inr (Or.inr (Or.inl rfl)))
          · split
            · exact Or.inr (Or.inr (Or.inr (Or.inr (Or.inl rfl))))
            · split
              · exact Or.inr (Or.inr (Or.inr (Or.inr (Or.inr (Or.inl rfl)))))
              · exact Or.inr (Or.inr (Or.inr (Or.inr (Or.inr (Or.inr rfl)))))
      · exact Or.inr (Or.inr (Or.inr (Or.inr (Or.inr (Or.inr rfl)))))

end Rescheck

namespace Clusterstats
open PBS

theorem cs_delta_spec (n : Node) (d : Stats) (h : analyze_step initStats n = some d) :
    d.compute.cores_available = (if inComputePool n then ncpusAvail n else 0) ∧
    d.compute.cores_assigned = (if inComputePool n then ncpusAssigned n else 0) ∧
    d.compute.memory_available_mb = (if inComputePool n then memAvail n else 0) ∧
    d.compute.memory_assigned_mb = (if inComputePool n then memAssigned n else 0) ∧
    d.compute.unique_jobs = (if inComputePool n then nodeJobs n else ∅) ∧
    d.gpu.cpu_cores_available = (if inGpuPool n then ncpusAvail n else 0) ∧
    d.gpu.cpu_cores_assigned = (if inGpuPool n then ncpusAssigned n else 0) ∧
    d.gpu.gpu_devices_available = (if inGpuPool n then ngpusAvail n else 0) ∧
    d.gpu.gpu_devices_assigned = (if inGpuPool n then ngpusAssigned n else 0) ∧
    d.gpu.memory_available_mb = (if inGpuPool n then memAvail n else 0) ∧
    d.gpu.memory_assigned_mb = (if inGpuPool n then memAssigned n else 0) ∧
    d.gpu.unique_jobs = (if inGpuPool n then nodeJobs n else ∅) := by
  dsimp only [analyze_step] at h
  rcases cs_classify_shape n.name (nodeState n) (nodeQlist n) (nodeVntype n) with
    hs | hs | hs | hs | hs <;> rw [hs] at h <;> dsimp only at h
  · -- down_offline
    have hcp : inComputePool n = false := by
      simp [inComputePool, classifyNode, hs]
    have hgp : inGpuPool n = false := by
      simp [inGpuPool, classifyNode, hs]
    rw [if_pos rfl] at h
    split at h
    · split at h
      · injection h with h
        subst h
        refine ⟨?_,?_,?_,?_,?_,?_,?_,?_,?_,?_,?_,?_⟩ <;>
          simp [hcp, hgp, initStats, initComputeStats, initGpuStats]
      · injection h with h
        subst h
        refine ⟨?_,?_,?_,?_,?_,?_,?_,?_,?_,?_,?_,?_⟩ <;>
          simp [hcp, hgp, initStats, initComputeStats, initGpuStats]
    · injection h with h
      subst h
      refine ⟨?_,?_,?_,?_,?_,?_,?_,?_,?_,?_,?_,?_⟩ <;>
        simp [hcp, hgp, initStats, initComputeStats, initGpuStats]
  · -- not_compute_vnode
    have hcp : inComputePool n = false := by
      simp [inComputePool, classifyNode, hs]
    have hgp : inGpuPool n = false := by
      simp [inGpuPool, classifyNode, hs]
    rw [if_neg (by decide : ¬ ofStr "not_compute_vnode" = ofStr "down_offline"),
        if_pos rfl] at h
    injection h with h; subst h
    refine ⟨?_,?_,?_,?_,?_,?_,?_,?_,?_,?_,?_,?_⟩ <;>
      simp [hcp, hgp, initStats, initComputeStats, initGpuStats]
  · -- included gpu
    have hcp : inComputePool n = false := by
      simp [inComputePool, classifyNode, hs]
      decide
    have hgp : inGpuPool n = true := by
      simp [inGpuPool, classifyNode, hs]
    rw [if_neg (by decide : ¬ ofStr "included" = ofStr "down_offline"),
        if_neg (by decide : ¬ true = false)] at h
    cases hma : nodeMem n (ofStr "resources_available.mem") with
    | none => rw [hma] at h; exact absurd h (by simp)
    | some mav =>
      cases hmas : nodeMem n (ofStr "resources_assigned.mem") with
      | none => rw [hma, hmas] at h; exact absurd h (by simp)
      | some mas =>
        rw [hma, hmas] at h
        dsimp only at h
        rw [if_pos rfl] at h
        injection h with h; subst h
        refine ⟨?_,?_,?_,?_,?_,?_,?_,?_,?_,?_,?_,?_⟩ <;>
          simp [hcp, hgp, initStats, initComputeStats, initGpuStats,
            ncpusAvail, ncpusAssigned, ngpusAvail, ngpusAssigned,
            memAvail, memAssigned, nodeJobs, hma, hmas]
  · -- included compute
    have hcp : inComputePool n = true := by
      simp [inComputePool, classifyNode, hs]
    have hgp : inGpuPool n = false := by
      simp [inGpuPool, classifyNode, hs]
      decide
    rw [if_neg (by decide : ¬ ofStr "included" = ofStr "down_offline"),
        if_neg (by decide : ¬ true = false)] at h
    cases hma : nodeMem n (ofStr "resources_available.mem") with
    | none => rw [hma] at h; exact absurd h (by simp)
    | some mav =>
      cases hmas : nodeMem n (ofStr "resources_assigned.mem") with
      | none => rw [hma, hmas] at h; exact absurd h (by simp)
      | some mas =>
        rw [hma, hmas] at h
        dsimp only at h
        rw [if_neg (by decide : ¬ ofStr "compute" = ofStr "gpu")] at h
        injection h with h; subst h
        refine ⟨?_,?_,?_,?_,?_,?_,?_,?_,?_,?_,?_,?_⟩ <;>
          simp [hcp, hgp, initStats, initComputeStats, initGpuStats,
            ncpusAvail, ncpusAssigned, memAvail, memAssigned, nodeJobs, hma, hmas]
  · -- no_monitored_queues
    have hcp : inComputePool n = false := by
      simp [inComputePool, classifyNode, hs]
    have hgp : inGpuPool n = false := by
      simp [inGpuPool, classifyNode, hs]
    rw [if_neg (by decide : ¬ ofStr "no_monitored_queues" = ofStr "down_offline"),
        if_pos rfl] at h
    injection h with h; subst h
    refine ⟨?_,?_,?_,?_,?_,?_,?_,?_,?_,?_,?_,?_⟩ <;>
      simp [hcp, hgp, initStats, initComputeStats, initGpuStats]

end Clusterstats

namespace Rescheck
open PBS

theorem rs_excluded_delta (n : Node) (d : Stats) (reason : Str)
    (hs : should_include_node n.name (nodeState n) (nodeQlist n) (nodeVntype n)
      = (false, reason, if is_gpu_node n.name then ofStr "gpu" else ofStr "compute"))
    (hrd : reason ≠ ofStr "down_offline")
    (h : analyze_step initStats n = some d) :
    d = { initStats with
      total_nodes := 1,
      excluded_counts := fun t => if t = reason then 1 else 0,
      excluded_nodes := fun t => if t = reason then [n.name] else [] } := by
  dsimp only [analyze_step] at h
  rw [hs] at h
  dsimp only at h
  rw [if_neg hrd, if_pos rfl] at h
  injection h with h
  subst h
  ext t <;> simp [initStats, initComputeStats, initGpuStats]

theorem rs_delta_spec (n : Node) (d : Stats) (h : analyze_step initStats n = some d) :
    d.compute.cores_available = (if inComputePool n then ncpusAvail n else 0) ∧
    d.compute.cores_assigned = (if inComputePool n then ncpusAssigned n else 0) ∧
    d.compute.memory_available_mb = (if inComputePool n then memAvail n else 0) ∧
    d.compute.memory_assigned_mb = (if inComputePool n then memAssigned n else 0) ∧
    d.compute.unique_jobs = (if inComputePool n then nodeJobs n else ∅) ∧
    d.gpu.cpu_cores_available = (if inGpuPool n then ncpusAvail n else 0) ∧
    d.gpu.cpu_cores_assigned = (if inGpuPool n then ncpusAssigned n else 0) ∧
    d.gpu.gpu_devices_available = (if inGpuPool n then ngpusAvail n else 0) ∧
    d.gpu.gpu_devices_assigned = (if inGpuPool n then ngpusAssigned n else 0) ∧
    d.gpu.memory_available_mb = (if inGpuPool n then memAvail n else 0) ∧
    d.gpu.memory_assigned_mb = (if inGpuPool n then memAssigned n else 0) ∧
    d.gpu.unique_jobs = (if inGpuPool n then nodeJobs n else ∅) := by
  have hshape := rs_classify_shape n.name (nodeState n) (nodeQlist n) (nodeVntype n)
  rcases hshape with hs | hs | hs | hs | hs | hs | hs
  · -- down_offline
    have hcp : inComputePool n = false := by simp [inComputePool, classifyNode, hs]
    have hgp : inGpuPool n = false := by simp [inGpuPool, classifyNode, hs]
    dsimp only [analyze_step] at h
    rw [hs] at h
    dsimp only at h
    rw [if_pos rfl] at h
    split at h
    · injection h with h
      subst h
      refine ⟨?_,?_,?_,?_,?_,?_,?_,?_,?_,?_,?_,?_⟩ <;>
        simp [hcp, hgp, initStats, initComputeStats, initGpuStats]
    · injection h with h
      subst h
      refine ⟨?_,?_,?_,?_,?_,?_,?_,?_,?_,?_,?_,?_⟩ <;>
        simp [hcp, hgp, initStats, initComputeStats, initGpuStats]
  · -- not_compute_vnode
    have hcp : inComputePool n = false := by simp [inComputePool, classifyNode, hs]
    have hgp : inGpuPool n = false := by simp [inGpuPool, classifyNode, hs]
    have hd := rs_excluded_delta n d (ofStr "not_compute_vnode") hs (by decide) h
    subst hd
    refine ⟨?_,?_,?_,?_,?_,?_,?_,?_,?_,?_,?_,?_⟩ <;>
      simp [hcp, hgp, initStats, initComputeStats, initGpuStats]
  · -- interactive
    have hcp : inComputePool n = false := by simp [inComputePool, classifyNode, hs]
    have hgp : inGpuPool n = false := by simp [inGpuPool, classifyNode, hs]
    have hd := rs_excluded_delta n d (ofStr "interactive") hs (by decide) h
    subst hd
    refine ⟨?_,?_,?_,?_,?_,?_,?_,?_,?_,?_,?_,?_⟩ <;>
      simp [hcp, hgp, initStats, initComputeStats, initGpuStats]
  · -- class
    have hcp : inComputePool n = false := by simp [inComputePool, classifyNode, hs]
    have hgp : inGpuPool n = false := by simp [inGpuPool, classifyNode, hs]
    have hd := rs_excluded_delta n d (ofStr "class") hs (by decide) h
    subst hd
    refine ⟨?_,?_,?_,?_,?_,?_,?_,?_,?_,?_,?_,?_⟩ <;>
      simp [hcp, hgp, initStats, initComputeStats, initGpuStats]
  · -- admin
    have hcp : inComputePool n = false := by simp [inComputePool, classifyNode, hs]
    have hgp : inGpuPool n = false := by simp [inGpuPool, classifyNode, hs]
    have hd := rs_excluded_delta n d (ofStr "admin") hs (by decide) h
    subst hd
    refine ⟨?_,?_,?_,?_,?_,?_,?_,?_,?_,?_,?_,?_⟩ <;>
      simp [hcp, hgp, initStats, initComputeStats, initGpuStats]
  · -- other_excluded
    have hcp : inComputePool n = false := by simp [inComputePool, classifyNode, hs]
    have hgp : inGpuPool n = false := by simp [inGpuPool, classifyNode, hs]
    have hd := rs_excluded_delta n d (ofStr "other_excluded") hs (by decide) h
    subst hd
    refine ⟨?_,?_,?_,?_,?_,?_,?_,?_,?_,?_,?_,?_⟩ <;>
      simp [hcp, hgp, initStats, initComputeStats, initGpuStats]
  · -- included
    dsimp only [analyze_step] at h
    rw [hs] at h
    dsimp only at h
    rw [if_neg (by decide : ¬ ofStr "included" = ofStr "down_offline"),
        if_neg (by decide : ¬ true = false)] at h
    cases hma : nodeMem n (ofStr "resources_available.mem") with
    | none => rw [hma] at h; exact absurd h (by simp)
    | some mav =>
      cases hmas : nodeMem n (ofStr "resources_assigned.mem") with
      | none => rw [hma, hmas] at h; exact absurd h (by simp)
      | some mas =>
        rw [hma, hmas] at h
        dsimp only at h
        cases hg : is_gpu_node n.name with
        | false =>
          have hcp : inComputePool n = true := by
            simp [inComputePool, classifyNode, hs, hg]
          have hgp : inGpuPool n = false := by
            simp [inGpuPool, classifyNode, hs, hg]
            decide
          rw [hg] at h
          rw [if_neg (by decide : ¬ (if false = true then ofStr "gpu" else ofStr "compute") = ofStr "gpu")] at h
          injection h with h; subst h
          refine ⟨?_,?_,?_,?_,?_,?_,?_,?_,?_,?_,?_,?_⟩ <;>
            simp [hcp, hgp, initStats, initComputeStats, initGpuStats,
              ncpusAvail, ncpusAssigned, memAvail, memAssigned, nodeJobs, hma, hmas]
        | true =>
          have hcp : inComputePool n = false := by
            simp [inComputePool, classifyNode, hs, hg]
            decide
          have hgp : inGpuPool n = true := by
            simp [inGpuPool, classifyNode, hs, hg]
          rw [hg] at h
          rw [if_pos (by decide : (if true = true then ofStr "gpu" else ofStr "compute") = ofStr "gpu")] at h
          injection h with h; subst h
          refine ⟨?_,?_,?_,?_,?_,?_,?_,?_,?_,?_,?_,?_⟩ <;>
            simp [hcp, hgp, initStats, initComputeStats, initGpuStats,
              ncpusAvail, ncpusAssigned, ngpusAvail, ngpusAssigned,
              memAvail, memAssigned, nodeJobs, hma, hmas]

end Rescheck

namespace PBS

theorem mem_unionJobs (l : List Node) (x : Str) :
    x ∈ unionJobs l ↔ ∃ n ∈ l, x ∈ nodeJobs n := by
  induction l with
  | nil => simp [unionJobs]
  | cons n l ih =>
    simp only [unionJobs, List.map_cons, List.foldr_cons, Finset.mem_union] at ih ⊢
    rw [ih]
    simp

theorem unionJobs_perm {l1 l2 : List Node} (h : l1.Perm l2) :
    unionJobs l1 = unionJobs l2 := by
  apply Finset.ext
  intro x
  rw [mem_unionJobs, mem_unionJobs]
  constructor
  · rintro ⟨n, hn, hx⟩; exact ⟨n, h.mem_iff.mp hn, hx⟩
  · rintro ⟨n, hn, hx⟩; exact ⟨n, h.mem_iff.mpr hn, hx⟩

theorem sum_filter_cons {M : Type} [AddCommMonoid M] (p : Node → Bool) (f : Node → M)
    (n : Node) (l : List Node) :
    (if p n then f n else 0) + ((l.filter p).map f).sum = (((n :: l).filter p).map f).sum := by
  rw [List.filter_cons]
  by_cases h : p n <;> simp [h]

theorem unionJobs_filter_cons (p : Node → Bool) (n : Node) (l : List Node) :
    (if p n then nodeJobs n else ∅) ∪ unionJobs (l.filter p)
      = unionJobs ((n :: l).filter p) := by
  rw [List.filter_cons]
  by_cases h : p n <;> simp [h, unionJobs]

end PBS

namespace Clusterstats
open PBS

theorem cs_analyze_spec : ∀ (l : List Node) (st : Stats), analyze_cluster l = some st →
    st.compute.cores_available = ((l.filter inComputePool).map ncpusAvail).sum ∧
    st.compute.cores_assigned = ((l.filter inComputePool).map ncpusAssigned).sum ∧
    st.compute.memory_available_mb = ((l.filter inComputePool).map memAvail).sum ∧
    st.compute.memory_assigned_mb = ((l.filter inComputePool).map memAssigned).sum ∧
    st.compute.unique_jobs = unionJobs (l.filter inComputePool) ∧
    st.gpu.cpu_cores_available = ((l.filter inGpuPool).map ncpusAvail).sum ∧
    st.gpu.cpu_cores_assigned = ((l.filter inGpuPool).map ncpusAssigned).sum ∧
    st.gpu.gpu_devices_available = ((l.filter inGpuPool).map ngpusAvail).sum ∧
    st.gpu.gpu_devices_assigned = ((l.filter inGpuPool).map ngpusAssigned).sum ∧
    st.gpu.memory_available_mb = ((l.filter inGpuPool).map memAvail).sum ∧
    st.gpu.memory_assigned_mb = ((l.filter inGpuPool).map memAssigned).sum ∧
    st.gpu.unique_jobs = unionJobs (l.filter inGpuPool) := by
  intro l
  induction l with
  | nil =>
    intro st h
    have hst : initStats = st := by
      have : analyze_cluster [] = some initStats := rfl
      rw [this] at h
      injection h
    subst hst
    refine ⟨?_,?_,?_,?_,?_,?_,?_,?_,?_,?_,?_,?_⟩ <;>
      simp [initStats, initComputeStats, initGpuStats, unionJobs]
  | cons n l ih =>
    intro st h
    rw [cs_analyze_cons] at h
    cases hd : analyze_step initStats n with
    | none => rw [hd] at h; exact absurd h (by simp)
    | some d =>
      rw [hd] at h
      simp only [Option.bind_eq_bind, Option.some_bind] at h
      cases ht : analyze_cluster l with
      | none => rw [ht] at h; exact absurd h (by simp)
      | some t =>
        rw [ht] at h
        simp only [Option.map_some', Option.some.injEq] at h
        subst h
        obtain ⟨e1,e2,e3,e4,e5,e6,e7,e8,e9,e10,e11,e12⟩ := cs_delta_spec n d hd
        obtain ⟨i1,i2,i3,i4,i5,i6,i7,i8,i9,i10,i11,i12⟩ := ih t ht
        simp only [addStats, addC, addG]
        refine ⟨?_,?_,?_,?_,?_,?_,?_,?_,?_,?_,?_,?_⟩
        · rw [e1, i1]; exact sum_filter_cons _ _ _ _
        · rw [e2, i2]; exact sum_filter_cons _ _ _ _
        · rw [e3, i3]; exact sum_filter_cons _ _ _ _
        · rw [e4, i4]; exact sum_filter_cons _ _ _ _
        · rw [e5, i5]; exact unionJobs_filter_cons _ _ _
        · rw [e6, i6]; exact sum_filter_cons _ _ _ _
        · rw [e7, i7]; exact sum_filter_cons _ _ _ _
        · rw [e8, i8]; exact sum_filter_cons _ _ _ _
        · rw [e9, i9]; exact sum_filter_cons _ _ _ _
        · rw [e10, i10]; exact sum_filter_cons _ _ _ _
        · rw [e11, i11]; exact sum_filter_cons _ _ _ _
        · rw [e12, i12]; exact unionJobs_filter_cons _ _ _

theorem cs_analyze_isSome (l : List Node) :
    (analyze_cluster l).isSome = true
      ↔ ∀ n ∈ l, (analyze_step initStats n).isSome = true := by
  induction l with
  | nil => simp [show analyze_cluster [] = some initStats from rfl]
  | cons n l ih =>
    rw [cs_analyze_cons]
    cases hd : analyze_step initStats n with
    | none => simp [hd]
    | some d =>
      cases ht : analyze_cluster l with
      | none => simp [hd, ht] at ih ⊢; exact ih
      | some t => simp [hd, ht] at ih ⊢; exact ih

end Clusterstats

namespace Rescheck
open PBS

theorem rs_analyze_spec : ∀ (l : List Node) (st : Stats), analyze_cluster l = some st →
    st.compute.cores_available = ((l.filter inComputePool).map ncpusAvail).sum ∧
    st.compute.cores_assigned = ((l.filter inComputePool).map ncpusAssigned).sum ∧
    st.compute.memory_available_mb = ((l.filter inComputePool).map memAvail).sum ∧
    st.compute.memory_assigned_mb = ((l.filter inComputePool).map memAssigned).sum ∧
    st.compute.unique_jobs = unionJobs (l.filter inComputePool) ∧
    st.gpu.cpu_cores_available = ((l.filter inGpuPool).map ncpusAvail).sum ∧
    st.gpu.cpu_cores_assigned = ((l.filter inGpuPool).map ncpusAssigned).sum ∧
    st.gpu.gpu_devices_available = ((l.filter inGpuPool).map ngpusAvail).sum ∧
    st.gpu.gpu_devices_assigned = ((l.filter inGpuPool).map ngpusAssigned).sum ∧
    st.gpu.memory_available_mb = ((l.filter inGpuPool).map memAvail).sum ∧
    st.gpu.memory_assigned_mb = ((l.filter inGpuPool).map memAssigned).sum ∧
    st.gpu.unique_jobs = unionJobs (l.filter inGpuPool) := by
  intro l
  induction l with
  | nil =>
    intro st h
    have hst : initStats = st := by
      have : analyze_cluster [] = some initStats := rfl
      rw [this] at h
      injection h
    subst hst
    refine ⟨?_,?_,?_,?_,?_,?_,?_,?_,?_,?_,?_,?_⟩ <;>
      simp [initStats, initComputeStats, initGpuStats, unionJobs]
  | cons n l ih =>
    intro st h
    rw [rs_analyze_cons] at h
    cases hd : analyze_step initStats n with
    | none => rw [hd] at h; exact absurd h (by simp)
    | some d =>
      rw [hd] at h
      simp only [Option.bind_eq_bind, Option.some_bind] at h
      cases ht : analyze_cluster l with
      | none => rw [ht] at h; exact absurd h (by simp)
      | some t =>
        rw [ht] at h
        simp only [Option.map_some', Option.some.injEq] at h
        subst h
        obtain ⟨e1,e2,e3,e4,e5,e6,e7,e8,e9,e10,e11,e12⟩ := rs_delta_spec n d hd
        obtain ⟨i1,i2,i3,i4,i5,i6,i7,i8,i9,i10,i11,i12⟩ := ih t ht
        simp only [addStats, addC, addG]
        refine ⟨?_,?_,?_,?_,?_,?_,?_,?_,?_,?_,?_,?_⟩
        · rw [e1, i1]; exact sum_filter_cons _ _ _ _
        · rw [e2, i2]; exact sum_filter_cons _ _ _ _
        · rw [e3, i3]; exact sum_filter_cons _ _ _ _
        · rw [e4, i4]; exact sum_filter_cons _ _ _ _
        · rw [e5, i5]; exact unionJobs_filter_cons _ _ _
        · rw [e6, i6]; exact sum_filter_cons _ _ _ _
        · rw [e7, i7]; exact sum_filter_cons _ _ _ _
        · rw [e8, i8]; exact sum_filter_cons _ _ _ _
        · rw [e9, i9]; exact sum_filter_cons _ _ _ _
        · rw [e10, i10]; exact sum_filter_cons _ _ _ _
        · rw [e11, i11]; exact sum_filter_cons _ _ _ _
        · rw [e12, i12]; exact unionJobs_filter_cons _ _ _

theorem rs_analyze_isSome (l : List Node) :
    (analyze_cluster l).isSome = true
      ↔ ∀ n ∈ l, (analyze_step initStats n).isSome = true := by
  induction l with
  | nil => simp [show analyze_cluster [] = some initStats from rfl]
  | cons n l ih =>
    rw [rs_analyze_cons]
    cases hd : analyze_step initStats n with
    | none => simp [hd]
    | some d =>
      cases ht : analyze_cluster l with
      | none => simp [hd, ht] at ih ⊢; exact ih
      | some t => simp [hd, ht] at ih ⊢; exact ih

end Rescheck

namespace PBS

theorem pyStrip_sub_self (s : Str) : pyStrip s <:+: s := by
  have h1 : s.dropWhile pySpace <:+ s := List.dropWhile_suffix pySpace
  have h0 : (s.dropWhile pySpace).reverse.dropWhile pySpace <:+ (s.dropWhile pySpace).reverse :=
    List.dropWhile_suffix pySpace
  have h2 : ((s.dropWhile pySpace).reverse.dropWhile pySpace).reverse
      <+: ((s.dropWhile pySpace).reverse).reverse := List.reverse_prefix.mpr h0
  rw [List.reverse_reverse] at h2
  exact (h2.isInfix).trans h1.isInfix

theorem chunk_sub_intercalate (c : Char) (f : Str) :
    ∀ (parts : List Str), f ∈ parts → f <:+: [c].intercalate parts := by
  intro parts
  induction parts with
  | nil => intro hf; simp at hf
  | cons p ps ih =>
    intro hf
    rcases List.mem_cons.mp hf with rfl | hf
    · cases ps with
      | nil => simp [List.intercalate]
      | cons q qs =>
        rw [show [c].intercalate (f :: q :: qs) = f ++ [c] ++ [c].intercalate (q :: qs) by
          simp [List.intercalate, List.intersperse_cons₂]]
        rw [List.append_assoc]
        exact (List.prefix_append f ([c] ++ [c].intercalate (q :: qs))).isInfix
    · cases ps with
      | nil => simp at hf
      | cons q qs =>
        rw [show [c].intercalate (p :: q :: qs) = p ++ [c] ++ [c].intercalate (q :: qs) by
          simp [List.intercalate, List.intersperse_cons₂]]
        exact (ih hf).trans (List.suffix_append (p ++ [c]) ([c].intercalate (q :: qs))).isInfix

theorem chunk_sub_splitOn (c : Char) (f s : Str) (h : f ∈ List.splitOn c s) : f <:+: s := by
  have := chunk_sub_intercalate c f (List.splitOn c s) h
  rwa [List.intercalate_splitOn] at this

end PBS

namespace PBS

theorem char_toNat_ofNat_lt (n : ℕ) (h : n < 55296) : (Char.ofNat n).toNat = n := by
  have hv : n.isValidChar := Or.inl h
  simp only [Char.ofNat, hv, dif_pos, Char.ofNatAux, Char.toNat, UInt32.toNat]
  simp

theorem char_toNat_inj {a b : Char} (h : a.toNat = b.toNat) : a = b := by
  have ha := Char.ofNat_toNat a
  have hb := Char.ofNat_toNat b
  rw [← ha, ← hb, h]

theorem toLower_eq_g (c : Char) : c.toLower = 'g' ↔ (c = 'g' ∨ c = 'G') := by
  unfold Char.toLower
  by_cases h : c.toNat ≥ 65 ∧ c.toNat ≤ 90
  · rw [if_pos h]
    constructor
    · intro he
      have h2 : (Char.ofNat (c.toNat + 32)).toNat = 103 := by rw [he]; decide
      rw [char_toNat_ofNat_lt _ (by omega)] at h2
      right
      apply char_toNat_inj
      show c.toNat = 71
      omega
    · rintro (rfl | rfl)
      · simp at h
      · decide
  · rw [if_neg h]
    constructor
    · intro he; left; exact he
    · rintro (rfl | rfl)
      · rfl
      · exfalso; apply h; decide

theorem mem_pyLower_g (s : Str) : 'g' ∈ pyLower s ↔ ('g' ∈ s ∨ 'G' ∈ s) := by
  unfold pyLower
  rw [List.mem_map]
  constructor
  · rintro ⟨c, hc, he⟩
    rcases (toLower_eq_g c).mp he with rfl | rfl
    · exact Or.inl hc
    · exact Or.inr hc
  · rintro (h | h)
    · exact ⟨'g', h, by decide⟩
    · exact ⟨'G', h, by decide⟩

end PBS

open PBS

/-- C3: whenever any comma-separated flag of the state string equals
`down` or `offline` case-insensitively (after trimming), both classifiers
exclude the node with the `down_offline` reason irrespective of its name,
queue list and vnode type — this check precedes every other rule. -/
theorem C3_down_offline_precedence (name state qlist vntype : Str)
    (h : ∃ f ∈ List.splitOn ',' state,
      pyUpper (pyStrip f) = ofStr "DOWN" ∨ pyUpper (pyStrip f) = ofStr "OFFLINE") :
    Clusterstats.should_include_node name state qlist vntype
        = (false, ofStr "down_offline", ofStr "unknown") ∧
    (Rescheck.should_include_node name state qlist vntype).1 = false ∧
    (Rescheck.should_include_node name state qlist vntype).2.1 = ofStr "down_offline" := by
  obtain ⟨f, hf, hcase⟩ := h
  have hsub : pyUpper (pyStrip f) <:+: pyUpper state :=
    ((pyStrip_sub_self f).trans (chunk_sub_splitOn ',' f state hf)).map Char.toUpper
  have hcond : ofStr "DOWN" <:+: pyUpper state ∨ ofStr "OFFLINE" <:+: pyUpper state := by
    rcases hcase with hc | hc
    · left; rw [← hc]; exact hsub
    · right; rw [← hc]; exact hsub
  refine ⟨?_, ?_, ?_⟩
  · dsimp only [Clusterstats.should_include_node]
    rw [if_pos hcond]
  · dsimp only [Rescheck.should_include_node]
    rw [if_pos hcond]
  · dsimp only [Rescheck.should_include_node]
    rw [if_pos hcond]

/-- Witness for C3: the mixed state `"job-busy,offline"` is excluded by
both classifiers. -/
theorem C3_witness :
    Clusterstats.should_include_node (ofStr "node7") (ofStr "job-busy,offline")
        (ofStr "smallq") (ofStr "compute_vnode")
      = (false, ofStr "down_offline", ofStr "unknown") ∧
    (Rescheck.should_include_node (ofStr "node7") (ofStr "job-busy,offline")
        (ofStr "smallq") (ofStr "compute_vnode")).1 = false ∧
    (Rescheck.should_include_node (ofStr "node7") (ofStr "job-busy,offline")
        (ofStr "smallq") (ofStr "compute_vnode")).2.1 = ofStr "down_offline" :=
  C3_down_offline_precedence (ofStr "node7") (ofStr "job-busy,offline")
    (ofStr "smallq") (ofStr "compute_vnode") (by decide)

/-- C6 counterexample: in rescheck, a node named `"g1"` with an empty
queue list, state `"free"` and kind `compute_vnode` is included but
assigned to the GPU pool — not the general-compute pool the claim
requires for every such node. -/
theorem C6_counterexample :
    Rescheck.should_include_node (ofStr "g1") (ofStr "free") [] (ofStr "compute_vnode")
      = (true, ofStr "included", ofStr "gpu") ∧
    (ofStr "gpu" : Str) ≠ ofStr "compute" := by
  decide

/-- C6 as amended: a node that is not down/offline, has a recognized
compute kind and advertises an empty queue list is always included; the
queue-based classifier (clusterstats) assigns it to the general-compute
pool, while the name-pattern classifier (rescheck) assigns it to the pool
selected by the `g`-in-name test. -/
theorem C6_empty_qlist_included (name state qlist vntype : Str)
    (hdown : ¬ (ofStr "DOWN" <:+: pyUpper state ∨ ofStr "OFFLINE" <:+: pyUpper state))
    (hvn : vntype = ofStr "compute_vnode" ∨ vntype = ofStr "gpu_vnode")
    (hq : qlist = []) :
    Clusterstats.should_include_node name state qlist vntype
        = (true, ofStr "included", ofStr "compute") ∧
    Rescheck.should_include_node name state qlist vntype
        = (true, ofStr "included",
            if Rescheck.is_gpu_node name then ofStr "gpu" else ofStr "compute") := by
  constructor
  · dsimp only [Clusterstats.should_include_node]
    rw [if_neg hdown, if_neg (not_not_intro hvn), if_neg (by simp [hq])]
  · dsimp only [Rescheck.should_include_node]
    rw [if_neg hdown, if_neg (not_not_intro hvn), if_neg (by simp [hq])]

/-- Witness for C6: a node named without `g` is included into the
general-compute pool by both classifiers. -/
theorem C6_witness :
    Clusterstats.should_include_node (ofStr "n1") (ofStr "free") [] (ofStr "compute_vnode")
        = (true, ofStr "included", ofStr "compute") ∧
    Rescheck.should_include_node (ofStr "n1") (ofStr "free") [] (ofStr "compute_vnode")
        = (true, ofStr "included", ofStr "compute") := by
  have h := C6_empty_qlist_included (ofStr "n1") (ofStr "free") [] (ofStr "compute_vnode")
    (by decide) (by decide) rfl
  refine ⟨h.1, ?_⟩
  rw [h.2]
  decide

/-- C9: rescheck treats a node as a GPU node iff its name contains the
letter `g` in either case; such a node, when not down/offline and of a
recognized kind, is classified `(true, included, gpu)` for every queue
list (bypassing the queue checks applied only to non-GPU nodes), and a
successful aggregation step for it increments the GPU pool and leaves the
compute pool untouched. -/
theorem C9_gpu_name_pattern (node : Node) (stats stats2 : Stats) :
    (Rescheck.is_gpu_node node.name = true ↔ ('g' ∈ node.name ∨ 'G' ∈ node.name)) ∧
    (('g' ∈ node.name ∨ 'G' ∈ node.name) →
      ¬ (ofStr "DOWN" <:+: pyUpper (nodeState node) ∨
         ofStr "OFFLINE" <:+: pyUpper (nodeState node)) →
      (nodeVntype node = ofStr "compute_vnode" ∨ nodeVntype node = ofStr "gpu_vnode") →
      Rescheck.should_include_node node.name (nodeState node) (nodeQlist node) (nodeVntype node)
          = (true, ofStr "included", ofStr "gpu") ∧
      (Rescheck.analyze_step stats node = some stats2 →
        stats2.gpu.included_nodes = stats.gpu.included_nodes + 1 ∧
        stats2.compute = stats.compute)) := by
  have hiff : Rescheck.is_gpu_node node.name = true ↔ ('g' ∈ node.name ∨ 'G' ∈ node.name) := by
    unfold Rescheck.is_gpu_node
    rw [decide_eq_true_iff]
    exact mem_pyLower_g node.name
  refine ⟨hiff, ?_⟩
  intro hg hdown hvn
  have hgb : Rescheck.is_gpu_node node.name = true := hiff.mpr hg
  have hcls : Rescheck.should_include_node node.name (nodeState node) (nodeQlist node)
      (nodeVntype node) = (true, ofStr "included", ofStr "gpu") := by
    dsimp only [Rescheck.should_include_node]
    rw [if_neg hdown, if_neg (not_not_intro hvn), if_neg (by simp [hgb]), hgb]
    rw [if_pos rfl]
  refine ⟨hcls, ?_⟩
  intro hstep
  dsimp only [Rescheck.analyze_step] at hstep
  rw [hcls] at hstep
  dsimp only at hstep
  rw [if_neg (by decide : ¬ ofStr "included" = ofStr "down_offline"),
      if_neg (by decide : ¬ true = false)] at hstep
  cases hma : Rescheck.nodeMem node (ofStr "resources_available.mem") with
  | none => rw [hma] at hstep; exact absurd hstep (by simp)
  | some mav =>
    cases hmas : Rescheck.nodeMem node (ofStr "resources_assigned.mem") with
    | none => rw [hma, hmas] at hstep; exact absurd hstep (by simp)
    | some mas =>
      rw [hma, hmas] at hstep
      dsimp only at hstep
      rw [if_pos rfl] at hstep
      injection hstep with hstep
      subst hstep
      exact ⟨rfl, rfl⟩

/-- Witness for C9: node `"g1"` advertising only `interactiveq` is still
included as GPU and lands in the GPU pool. -/
theorem C9_witness :
    Rescheck.is_gpu_node (ofStr "g1") = true ∧
    Rescheck.should_include_node (ofStr "g1") (ofStr "free") (ofStr "interactiveq")
        (ofStr "compute_vnode") = (true, ofStr "included", ofStr "gpu") ∧
    (Rescheck.analyze_step initStats
        ⟨ofStr "g1", [(ofStr "state", ofStr "free"),
          (ofStr "resources_available.vntype", ofStr "compute_vnode"),
          (ofStr "resources_available.Qlist", ofStr "interactiveq")]⟩).map
      (fun s => s.gpu.included_nodes) = some 1 := by
  have hsome : (Rescheck.analyze_step initStats
      ⟨ofStr "g1", [(ofStr "state", ofStr "free"),
        (ofStr "resources_available.vntype", ofStr "compute_vnode"),
        (ofStr "resources_available.Qlist", ofStr "interactiveq")]⟩).isSome = true := rfl
  obtain ⟨s2, hs2⟩ := Option.isSome_iff_exists.mp hsome
  have h := C9_gpu_name_pattern
    ⟨ofStr "g1", [(ofStr "state", ofStr "free"),
      (ofStr "resources_available.vntype", ofStr "compute_vnode"),
      (ofStr "resources_available.Qlist", ofStr "interactiveq")]⟩ initStats s2
  have h2 := h.2 (by decide) (by decide) (by decide)
  refine ⟨h.1.mpr (by decide), h2.1, ?_⟩
  rw [hs2, Option.map_some']
  have h3 := (h2.2 hs2).1
  rw [h3]
  rfl

theorem slash_trunc_eq (e : Str) :
    (if '/' ∈ e then e.takeWhile (fun c => c ≠ '/') else e)
      = e.takeWhile (fun c => c ≠ '/') := by
  by_cases h : '/' ∈ e
  · rw [if_pos h]
  · rw [if_neg h]
    symm
    apply List.takeWhile_eq_self_iff.mpr
    intro c hc
    simp only [decide_eq_true_iff]
    intro he
    exact h (he ▸ hc)

theorem mem_foldl_insert (g : Str → Str) :
    ∀ (l : List Str) (acc : Finset Str) (x : Str),
    x ∈ l.foldl (fun a e => insert (g e) a) acc ↔ x ∈ acc ∨ ∃ e ∈ l, x = g e := by
  intro l
  induction l with
  | nil => intro acc x; simp
  | cons e l ih =>
    intro acc x
    rw [List.foldl_cons, ih]
    simp only [Finset.mem_insert, List.mem_cons]
    constructor
    · rintro ((rfl | hx) | ⟨e2, he2, rfl⟩)
      · exact Or.inr ⟨e, Or.inl rfl, rfl⟩
      · exact Or.inl hx
      · exact Or.inr ⟨e2, Or.inr he2, rfl⟩
    · rintro (hx | ⟨e2, (rfl | he2), rfl⟩)
      · exact Or.inl (Or.inr hx)
      · exact Or.inl (Or.inl rfl)
      · exact Or.inr ⟨e2, he2, rfl⟩

/-- C10: membership in the distinct active-job set is exactly: some
comma-separated entry of the jobs string, trimmed and non-empty, truncated
at its first `/`, equals the element — so a job occupying several cores or
vnode slots contributes one element — and the empty jobs string yields the
empty set. -/
theorem C10_unique_jobs (s x : Str) :
    (x ∈ count_unique_jobs s ↔
      ∃ e ∈ List.splitOn ',' s, pyStrip e ≠ [] ∧
        x = (pyStrip e).takeWhile (fun c => c ≠ '/')) ∧
    count_unique_jobs [] = ∅ := by
  refine ⟨?_, rfl⟩
  unfold count_unique_jobs
  by_cases hs : s = []
  · subst hs
    simp [List.splitOn_nil, show pyStrip ([] : Str) = [] from rfl]
  · rw [if_neg hs]
    rw [mem_foldl_insert (fun e => if '/' ∈ e then e.takeWhile (fun c => c ≠ '/') else e)]
    simp only [Finset.not_mem_empty, false_or, List.mem_filter, List.mem_map]
    constructor
    · rintro ⟨e, ⟨⟨e0, he0, rfl⟩, hne⟩, rfl⟩
      exact ⟨e0, he0, by simpa using hne, slash_trunc_eq _⟩
    · rintro ⟨e0, he0, hne, rfl⟩
      exact ⟨pyStrip e0, ⟨⟨e0, he0, rfl⟩, by simpa using hne⟩, (slash_trunc_eq _).symm⟩

/-- C1: the claim that `parse_memory_value` and `safe_int_parse` are total is
violated by the code: a non-numeric magnitude followed by a recognized unit
suffix (for example `"abcgb"`, or the bare suffix `"gb"`) reaches an
unguarded `float()` call and raises `ValueError` in both scripts (modelled
as `none`), while `safe_int_parse` really is total and the `<various>`
sentinel is handled.  This theorem evaluates both parsers at the failing
input and records the defensive behaviour of the surrounding cases. -/
theorem C1_parse_fault_eval :
    Clusterstats.parse_memory_value (ofStr "abcgb") = none ∧
    Rescheck.parse_memory_value (ofStr "abcgb") = none ∧
    Clusterstats.parse_memory_value (ofStr "gb") = none ∧
    Clusterstats.safe_int_parse (ofStr "abcgb") 7 = 7 ∧
    Rescheck.safe_int_parse (ofStr "abcgb") 7 = 7 ∧
    Rescheck.parse_memory_value (ofStr "<various>") = some 0 ∧
    Clusterstats.safe_int_parse (ofStr "<various>") 0 = 0 := by
  refine ⟨rfl, rfl, rfl, ?_, ?_, rfl, ?_⟩ <;> decide

/-- C2 counterexample: the claim lists `tb` among the recognized unit
suffixes with factor 1,048,576, but the code has no `tb` branch: `"1tb"`
falls into the `b` branch, `float("1t")` raises (modelled as `none`), and
in particular the result is not `some 1048576`. -/
theorem C2_counterexample_tb :
    Clusterstats.parse_memory_value (ofStr "1tb") = none ∧
    Rescheck.parse_memory_value (ofStr "1tb") = none ∧
    Clusterstats.parse_memory_value (ofStr "1tb") ≠ some 1048576 := by
  refine ⟨rfl, rfl, ?_⟩
  intro h
  exact absurd h (by decide)

theorem suffix_b_of_suffix_two (t : Str) (c : Char) (h : [c, 'b'] <:+ t) : [('b' : Char)] <:+ t :=
  List.IsSuffix.trans (by simp) h

/-- C2 as amended: after stripping whitespace and lower-casing,
`parse_memory_value` recognizes the suffixes `mb`, `kb`, `gb` and `b`
(checked in that order) scaling the parsed floating magnitude into
megabytes by ×1, ÷1024, ×1024 and ÷1,048,576 respectively, and unsuffixed
numeric text is treated as raw bytes (÷1,048,576); there is no `tb`
suffix. -/
theorem C2_memory_scaling (s : Str) (q : ℚ) (hne : s ≠ []) (hnv : s ≠ ofStr "<various>") :
    ((ofStr "mb" <:+ pyLower (pyStrip s)) →
      pyFloat (pyCut (pyLower (pyStrip s)) 2) = some q →
      Clusterstats.parse_memory_value s = some q ∧
      Rescheck.parse_memory_value s = some q) ∧
    (¬ (ofStr "mb" <:+ pyLower (pyStrip s)) →
      (ofStr "kb" <:+ pyLower (pyStrip s)) →
      pyFloat (pyCut (pyLower (pyStrip s)) 2) = some q →
      Clusterstats.parse_memory_value s = some (q / 1024) ∧
      Rescheck.parse_memory_value s = some (q / 1024)) ∧
    (¬ (ofStr "mb" <:+ pyLower (pyStrip s)) →
      ¬ (ofStr "kb" <:+ pyLower (pyStrip s)) →
      (ofStr "gb" <:+ pyLower (pyStrip s)) →
      pyFloat (pyCut (pyLower (pyStrip s)) 2) = some q →
      Clusterstats.parse_memory_value s = some (q * 1024) ∧
      Rescheck.parse_memory_value s = some (q * 1024)) ∧
    (¬ (ofStr "mb" <:+ pyLower (pyStrip s)) →
      ¬ (ofStr "kb" <:+ pyLower (pyStrip s)) →
      ¬ (ofStr "gb" <:+ pyLower (pyStrip s)) →
      (ofStr "b" <:+ pyLower (pyStrip s)) →
      pyFloat (pyCut (pyLower (pyStrip s)) 1) = some q →
      Clusterstats.parse_memory_value s = some (q / (1024 * 1024)) ∧
      Rescheck.parse_memory_value s = some (q / (1024 * 1024))) ∧
    (¬ (ofStr "b" <:+ pyLower (pyStrip s)) →
      pyFloat (pyLower (pyStrip s)) = some q →
      Clusterstats.parse_memory_value s = some (q / (1024 * 1024)) ∧
      Rescheck.parse_memory_value s = some (q / (1024 * 1024))) := by
  have hguard : ¬ (s = [] ∨ s = ofStr "<various>") := by
    rintro (h | h)
    · exact hne h
    · exact hnv h
  refine ⟨?_, ?_, ?_, ?_, ?_⟩
  · intro hmb hq
    constructor
    · dsimp only [Clusterstats.parse_memory_value]
      rw [if_neg hguard, if_pos hmb, hq]
    · dsimp only [Rescheck.parse_memory_value]
      rw [if_neg hne, if_pos hmb, hq]
  · intro hmb hkb hq
    constructor
    · dsimp only [Clusterstats.parse_memory_value]
      rw [if_neg hguard, if_neg hmb, if_pos hkb, hq, Option.map_some']
    · dsimp only [Rescheck.parse_memory_value]
      rw [if_neg hne, if_neg hmb, if_pos hkb, hq, Option.map_some']
  · intro hmb hkb hgb hq
    constructor
    · dsimp only [Clusterstats.parse_memory_value]
      rw [if_neg hguard, if_neg hmb, if_neg hkb, if_pos hgb, hq, Option.map_some']
    · dsimp only [Rescheck.parse_memory_value]
      rw [if_neg hne, if_neg hmb, if_neg hkb, if_pos hgb, hq, Option.map_some']
  · intro hmb hkb hgb hb hq
    constructor
    · dsimp only [Clusterstats.parse_memory_value]
      rw [if_neg hguard, if_neg hmb, if_neg hkb, if_neg hgb, if_pos hb, hq, Option.map_some']
    · dsimp only [Rescheck.parse_memory_value]
      rw [if_neg hne, if_neg hmb, if_neg hkb, if_neg hgb, if_pos hb, hq, Option.map_some']
  · intro hb hq
    have hmb : ¬ (ofStr "mb" <:+ pyLower (pyStrip s)) :=
      fun hx => hb (suffix_b_of_suffix_two _ 'm' hx)
    have hkb : ¬ (ofStr "kb" <:+ pyLower (pyStrip s)) :=
      fun hx => hb (suffix_b_of_suffix_two _ 'k' hx)
    have hgb : ¬ (ofStr "gb" <:+ pyLower (pyStrip s)) :=
      fun hx => hb (suffix_b_of_suffix_two _ 'g' hx)
    constructor
    · dsimp only [Clusterstats.parse_memory_value]
      rw [if_neg hguard, if_neg hmb, if_neg hkb, if_neg hgb, if_neg hb, hq]
    · dsimp only [Rescheck.parse_memory_value]
      rw [if_neg hne, if_neg hmb, if_neg hkb, if_neg hgb, if_neg hb, hq]

/-- Witness for C2: concrete inputs for every recognized suffix and the
unsuffixed raw-bytes case, in both scripts. -/
theorem C2_memory_scaling_witness :
    Clusterstats.parse_memory_value (ofStr "4gb") = some 4096 ∧
    Rescheck.parse_memory_value (ofStr "4gb") = some 4096 ∧
    Clusterstats.parse_memory_value (ofStr " 512MB ") = some 512 ∧
    Clusterstats.parse_memory_value (ofStr "2048kb") = some 2 ∧
    Clusterstats.parse_memory_value (ofStr "1048576b") = some 1 ∧
    Clusterstats.parse_memory_value (ofStr "2097152") = some 2 := by
  have hf4 : pyFloat (pyCut (pyLower (pyStrip (ofStr "4gb"))) 2) = some 4 := by
    rw [show pyFloat (pyCut (pyLower (pyStrip (ofStr "4gb"))) 2)
        = some (((1 : ℤ) : ℚ) * ((4 : ℕ) : ℚ)) from rfl]
    norm_num
  have h4 := (C2_memory_scaling (ofStr "4gb") 4 (by decide) (by decide)).2.2.1
    (by decide) (by decide) (by decide) hf4
  have hf512 : pyFloat (pyCut (pyLower (pyStrip (ofStr " 512MB "))) 2) = some 512 := by
    rw [show pyFloat (pyCut (pyLower (pyStrip (ofStr " 512MB "))) 2)
        = some (((1 : ℤ) : ℚ) * ((512 : ℕ) : ℚ)) from rfl]
    norm_num
  have h512 := (C2_memory_scaling (ofStr " 512MB ") 512 (by decide) (by decide)).1
    (by decide) hf512
  have hf2048 : pyFloat (pyCut (pyLower (pyStrip (ofStr "2048kb"))) 2) = some 2048 := by
    rw [show pyFloat (pyCut (pyLower (pyStrip (ofStr "2048kb"))) 2)
        = some (((1 : ℤ) : ℚ) * ((2048 : ℕ) : ℚ)) from rfl]
    norm_num
  have h2048 := (C2_memory_scaling (ofStr "2048kb") 2048 (by decide) (by decide)).2.1
    (by decide) (by decide) hf2048
  have hfb : pyFloat (pyCut (pyLower (pyStrip (ofStr "1048576b"))) 1) = some 1048576 := by
    rw [show pyFloat (pyCut (pyLower (pyStrip (ofStr "1048576b"))) 1)
        = some (((1 : ℤ) : ℚ) * ((1048576 : ℕ) : ℚ)) from rfl]
    norm_num
  have hb := (C2_memory_scaling (ofStr "1048576b") 1048576 (by decide) (by decide)).2.2.2.1
    (by decide) (by decide) (by decide) (by decide) hfb
  have hfu : pyFloat (pyLower (pyStrip (ofStr "2097152"))) = some 2097152 := by
    rw [show pyFloat (pyLower (pyStrip (ofStr "2097152")))
        = some (((1 : ℤ) : ℚ) * ((2097152 : ℕ) : ℚ)) from rfl]
    norm_num
  have hu := (C2_memory_scaling (ofStr "2097152") 2097152 (by decide) (by decide)).2.2.2.2
    (by decide) hfu
  refine ⟨?_, ?_, ?_, ?_, ?_, ?_⟩
  · rw [h4.1]; norm_num
  · rw [h4.2]; norm_num
  · rw [h512.1]
  · rw [h2048.1]; norm_num
  · rw [hb.1]; norm_num
  · rw [hu.1]; norm_num

/-- C5 (spec-modelled): queue eligibility is monotone.  For any queue of
the spec's static limit table, a footprint eligible for the queue remains
eligible after shrinking cores and memory to any positive smaller values,
except that a minimum-memory (high-memory-only) queue additionally
requires the shrunk memory to stay at or above its configured minimum. -/
theorem C5_queue_eligibility_monotone (q : QueueModel.QueueSpec) (c c2 : ℕ) (m m2 : ℚ)
    (he : QueueModel.eligible q c m = true) (hc0 : 0 < c2) (hc : c2 ≤ c)
    (hm0 : 0 < m2) (hm : m2 ≤ m) :
    (q.minMemoryGB = none → QueueModel.eligible q c2 m2 = true) ∧
    (∀ lo, q.minMemoryGB = some lo → lo ≤ m2 → QueueModel.eligible q c2 m2 = true) := by
  unfold QueueModel.eligible at he ⊢
  constructor
  · intro hmin
    rw [hmin] at he ⊢
    simp only [Bool.and_eq_true, decide_eq_true_eq] at he ⊢
    obtain ⟨⟨h1, h2⟩, _⟩ := he
    exact ⟨⟨le_trans hc h1, le_trans hm h2⟩, trivial⟩
  · intro lo hmin hlo
    rw [hmin] at he ⊢
    simp only [Bool.and_eq_true, decide_eq_true_eq] at he ⊢
    obtain ⟨⟨h1, h2⟩, _⟩ := he
    exact ⟨⟨le_trans hc h1, le_trans hm h2⟩, hlo⟩

/-- Witness for C5: a high-memory queue with a 128 GB minimum and a
regular queue without a minimum, at concrete footprints. -/
theorem C5_witness :
    (QueueModel.eligible ⟨ofStr "bigmemq", 40, 512, some 128, 3⟩ 20 256 = true) ∧
    (QueueModel.eligible ⟨ofStr "smallq", 8, 16, none, 10⟩ 2 4 = true) := by
  have h1 := C5_queue_eligibility_monotone ⟨ofStr "bigmemq", 40, 512, some 128, 3⟩
    40 20 512 256 (by norm_num [QueueModel.eligible]) (by norm_num) (by norm_num)
    (by norm_num) (by norm_num)
  have h2 := C5_queue_eligibility_monotone ⟨ofStr "smallq", 8, 16, none, 10⟩
    8 2 16 4 (by norm_num [QueueModel.eligible]) (by norm_num) (by norm_num)
    (by norm_num) (by norm_num)
  exact ⟨h1.2 128 rfl (by norm_num), h2.1 rfl⟩

/-- C7: for every displayed resource line, the reported utilization is
`assigned / available * 100` (with its color tier) whenever
`available > 0`, and when `available = 0` the display is exactly the
colorless `0 used / 0 total (0.0%)` record — the division is never
evaluated, so no input causes a division fault. -/
theorem C7_utilization_guard (a v : ℚ) :
    (0 < v →
      Clusterstats.calculate_utilization_display a v
        = ⟨some (Clusterstats.get_color_for_utilization (a / v * 100)), a, v, a / v * 100⟩ ∧
      Rescheck.utilization_line a v
        = ⟨some (Clusterstats.get_color_for_utilization (a / v * 100)), a, v, a / v * 100⟩) ∧
    (v = 0 →
      Clusterstats.calculate_utilization_display a v = ⟨none, 0, 0, 0⟩ ∧
      Rescheck.utilization_line a v = ⟨none, 0, 0, 0⟩) := by
  constructor
  · intro hv
    constructor
    · dsimp only [Clusterstats.calculate_utilization_display]
      rw [if_pos hv]
    · dsimp only [Rescheck.utilization_line]
      rw [if_pos hv]
  · intro hv
    subst hv
    constructor
    · dsimp only [Clusterstats.calculate_utilization_display]
      rw [if_neg (lt_irrefl 0)]
    · dsimp only [Rescheck.utilization_line]
      rw [if_neg (lt_irrefl 0)]

/-- Witness for C7: 32 of 64 cores shows 50% (yellow tier), and zero
available capacity shows the fixed zero display. -/
theorem C7_witness :
    Clusterstats.calculate_utilization_display 32 64
      = ⟨some Clusterstats.YELLOW, 32, 64, 50⟩ ∧
    Rescheck.utilization_line 32 64 = ⟨some Clusterstats.YELLOW, 32, 64, 50⟩ ∧
    Clusterstats.calculate_utilization_display 5 0 = ⟨none, 0, 0, 0⟩ ∧
    Rescheck.utilization_line 5 0 = ⟨none, 0, 0, 0⟩ := by
  have h1 := (C7_utilization_guard 32 64).1 (by norm_num)
  have h0 := (C7_utilization_guard 5 0).2 rfl
  have hp : (32 : ℚ) / 64 * 100 = 50 := by norm_num
  have hcol : Clusterstats.get_color_for_utilization 50 = Clusterstats.YELLOW := by
    unfold Clusterstats.get_color_for_utilization
    rw [if_neg (by norm_num), if_pos (by norm_num)]
  refine ⟨?_, ?_, h0.1, h0.2⟩
  · rw [h1.1, hp, hcol]
  · rw [h1.2, hp, hcol]

namespace PBS

theorem dropWhile_ws_nil (w : Str) (hw : w.all pySpace = true) :
    w.dropWhile pySpace = [] := by
  rw [List.dropWhile_eq_nil_iff]
  intro x hx
  exact List.all_eq_true.mp hw x hx

theorem pyStrip_ws_left (w s : Str) (hw : w.all pySpace = true) :
    pyStrip (w ++ s) = pyStrip s := by
  unfold pyStrip
  rw [List.dropWhile_append, dropWhile_ws_nil w hw]
  simp

theorem pyStrip_ws_right (s w : Str) (hw : w.all pySpace = true) :
    pyStrip (s ++ w) = pyStrip s := by
  unfold pyStrip
  rw [List.dropWhile_append]
  by_cases hse : (s.dropWhile pySpace).isEmpty
  · rw [if_pos hse]
    rw [dropWhile_ws_nil w hw]
    have h0 : s.dropWhile pySpace = [] := by
      cases h : s.dropWhile pySpace
      · rfl
      · rw [h] at hse; simp at hse
    rw [h0]
  · rw [if_neg hse]
    rw [List.reverse_append, List.dropWhile_append,
      if_pos (by rw [dropWhile_ws_nil w.reverse (by simpa using hw)]; rfl)]

theorem parseLine_count (st : List Node × Option Node) (l : Str) :
    (parseLine st l).1.length + (parseLine st l).2.toList.length
      = st.1.length + st.2.toList.length + (if isNodeHeader l then 1 else 0) := by
  dsimp only [parseLine, isNodeHeader]
  by_cases hb : pyRstrip l = []
  · rw [if_pos hb]
    simp [hb]
  · rw [if_neg hb]
    by_cases hi : lineIndented (pyRstrip l) = true
    · rw [if_neg (fun hc => hc hi)]
      rcases st with ⟨ns, cur⟩
      cases cur with
      | none => simp [hb, hi]
      | some c =>
        dsimp only
        by_cases he : '=' ∈ pyStrip (pyRstrip l)
        · rw [if_pos he]; simp [hb, hi]
        · rw [if_neg he]; simp [hb, hi]
    · rw [if_pos (fun hx => hi hx)]
      rcases st with ⟨ns, cur⟩
      cases cur with
      | none => simp [hb, hi]
      | some c => simp [hb, hi]

theorem parse_count_aux :
    ∀ (ls : List Str) (st : List Node × Option Node),
    (List.foldl parseLine st ls).1.length + (List.foldl parseLine st ls).2.toList.length
      = st.1.length + st.2.toList.length + ls.countP isNodeHeader := by
  intro ls
  induction ls with
  | nil => intro st; simp
  | cons l ls ih =>
    intro st
    rw [List.foldl_cons, ih, parseLine_count, List.countP_cons]
    by_cases hp : isNodeHeader l <;> simp [hp] <;> omega

theorem parseLine_noop (st : List Node × Option Node) (l : Str)
    (h : pyRstrip l = [] ∨
      (lineIndented (pyRstrip l) = true ∧ '=' ∉ pyStrip (pyRstrip l))) :
    parseLine st l = st := by
  dsimp only [parseLine]
  rcases h with hb | ⟨hi, he⟩
  · rw [if_pos hb]
  · have hb : ¬ pyRstrip l = [] := by
      intro h0
      rw [h0] at hi
      exact absurd hi (by decide)
    rw [if_neg hb, if_neg (fun hc => hc hi)]
    rcases st with ⟨ns, cur⟩
    cases cur with
    | none => rfl
    | some c =>
      dsimp only
      rw [if_neg he]

end PBS

/-- C8: the block-format inventory parser is a total function, every
unindented non-blank line (after right-stripping) starts exactly one node
record (the record count equals the count of such lines), a blank line or
an indented line without `=` anywhere in the input is a no-op for the line
loop, and whitespace padding around the whole content does not change the
parse. -/
theorem C8_block_format_total (content w1 w2 l : Str) (pre post : List Str)
    (st : List Node × Option Node)
    (hw1 : w1.all pySpace = true) (hw2 : w2.all pySpace = true)
    (hno : pyRstrip l = [] ∨
      (lineIndented (pyRstrip l) = true ∧ '=' ∉ pyStrip (pyRstrip l))) :
    (parse_pbsnodes_output content).length
        = (List.splitOn '\n' (pyStrip content)).countP isNodeHeader ∧
    List.foldl parseLine st (pre ++ l :: post) = List.foldl parseLine st (pre ++ post) ∧
    parse_pbsnodes_output (w1 ++ content ++ w2) = parse_pbsnodes_output content := by
  refine ⟨?_, ?_, ?_⟩
  · dsimp only [parse_pbsnodes_output, parseLines]
    rw [List.length_append]
    have := parse_count_aux (List.splitOn '\n' (pyStrip content)) ([], none)
    simpa using this
  · rw [List.foldl_append, List.foldl_append, List.foldl_cons,
      parseLine_noop (List.foldl parseLine st pre) l hno]
  · dsimp only [parse_pbsnodes_output]
    rw [pyStrip_ws_right (w1 ++ content) w2 hw2, pyStrip_ws_left w1 content hw1]

/-- Witness for C8: a concrete two-node dump, a blank attribute line
inserted mid-stream, and newline padding around the content. -/
theorem C8_witness :
    (parse_pbsnodes_output (ofStr "node1\n state = free\nnode2")).length
        = (List.splitOn '\n' (pyStrip (ofStr "node1\n state = free\nnode2"))).countP
            isNodeHeader ∧
    List.foldl parseLine ([], none)
        ([ofStr "node1"] ++ (ofStr "   ") :: [ofStr " state = free"])
      = List.foldl parseLine ([], none) ([ofStr "node1"] ++ [ofStr " state = free"]) ∧
    parse_pbsnodes_output (ofStr "\n" ++ ofStr "node1\n state = free\nnode2" ++ ofStr "\n\n")
      = parse_pbsnodes_output (ofStr "node1\n state = free\nnode2") :=
  C8_block_format_total (ofStr "node1\n state = free\nnode2") (ofStr "\n") (ofStr "\n\n")
    (ofStr "   ") [ofStr "node1"] [ofStr " state = free"] ([], none)
    (by decide) (by decide) (by decide)

/-- C4: aggregation is additive and order-independent in both scripts.
After a successful pass, each pool's core, memory and device totals equal
the sums of the corresponding per-node parsed values over exactly the
nodes the classifier places in that pool, and permuting the input node
list yields a pass that succeeds with the same pool totals and the same
distinct-job-set sizes. -/
theorem C4_aggregation_additive (lc : List Node) (sc : Stats) (lr : List Node) (sr : Stats) :
    (Clusterstats.analyze_cluster lc = some sc →
      (sc.compute.cores_available
          = ((lc.filter Clusterstats.inComputePool).map Clusterstats.ncpusAvail).sum ∧
       sc.compute.cores_assigned
          = ((lc.filter Clusterstats.inComputePool).map Clusterstats.ncpusAssigned).sum ∧
       sc.compute.memory_available_mb
          = ((lc.filter Clusterstats.inComputePool).map Clusterstats.memAvail).sum ∧
       sc.compute.memory_assigned_mb
          = ((lc.filter Clusterstats.inComputePool).map Clusterstats.memAssigned).sum ∧
       sc.gpu.cpu_cores_available
          = ((lc.filter Clusterstats.inGpuPool).map Clusterstats.ncpusAvail).sum ∧
       sc.gpu.cpu_cores_assigned
          = ((lc.filter Clusterstats.inGpuPool).map Clusterstats.ncpusAssigned).sum ∧
       sc.gpu.gpu_devices_available
          = ((lc.filter Clusterstats.inGpuPool).map Clusterstats.ngpusAvail).sum ∧
       sc.gpu.gpu_devices_assigned
          = ((lc.filter Clusterstats.inGpuPool).map Clusterstats.ngpusAssigned).sum ∧
       sc.gpu.memory_available_mb
          = ((lc.filter Clusterstats.inGpuPool).map Clusterstats.memAvail).sum ∧
       sc.gpu.memory_assigned_mb
          = ((lc.filter Clusterstats.inGpuPool).map Clusterstats.memAssigned).sum) ∧
      (∀ lc2, lc.Perm lc2 → ∃ sc2, Clusterstats.analyze_cluster lc2 = some sc2 ∧
        sc2.compute.cores_available = sc.compute.cores_available ∧
        sc2.compute.cores_assigned = sc.compute.cores_assigned ∧
        sc2.compute.memory_available_mb = sc.compute.memory_available_mb ∧
        sc2.compute.memory_assigned_mb = sc.compute.memory_assigned_mb ∧
        sc2.gpu.cpu_cores_available = sc.gpu.cpu_cores_available ∧
        sc2.gpu.cpu_cores_assigned = sc.gpu.cpu_cores_assigned ∧
        sc2.gpu.gpu_devices_available = sc.gpu.gpu_devices_available ∧
        sc2.gpu.gpu_devices_assigned = sc.gpu.gpu_devices_assigned ∧
        sc2.gpu.memory_available_mb = sc.gpu.memory_available_mb ∧
        sc2.gpu.memory_assigned_mb = sc.gpu.memory_assigned_mb ∧
        sc2.compute.unique_jobs.card = sc.compute.unique_jobs.card ∧
        sc2.gpu.unique_jobs.card = sc.gpu.unique_jobs.card)) ∧
    (Rescheck.analyze_cluster lr = some sr →
      (sr.compute.cores_available
          = ((lr.filter Rescheck.inComputePool).map Rescheck.ncpusAvail).sum ∧
       sr.compute.cores_assigned
          = ((lr.filter Rescheck.inComputePool).map Rescheck.ncpusAssigned).sum ∧
       sr.compute.memory_available_mb
          = ((lr.filter Rescheck.inComputePool).map Rescheck.memAvail).sum ∧
       sr.compute.memory_assigned_mb
          = ((lr.filter Rescheck.inComputePool).map Rescheck.memAssigned).sum ∧
       sr.gpu.cpu_cores_available
          = ((lr.filter Rescheck.inGpuPool).map Rescheck.ncpusAvail).sum ∧
       sr.gpu.cpu_cores_assigned
          = ((lr.filter Rescheck.inGpuPool).map Rescheck.ncpusAssigned).sum ∧
       sr.gpu.gpu_devices_available
          = ((lr.filter Rescheck.inGpuPool).map Rescheck.ngpusAvail).sum ∧
       sr.gpu.gpu_devices_assigned
          = ((lr.filter Rescheck.inGpuPool).map Rescheck.ngpusAssigned).sum ∧
       sr.gpu.memory_available_mb
          = ((lr.filter Rescheck.inGpuPool).map Rescheck.memAvail).sum ∧
       sr.gpu.memory_assigned_mb
          = ((lr.filter Rescheck.inGpuPool).map Rescheck.memAssigned).sum) ∧
      (∀ lr2, lr.Perm lr2 → ∃ sr2, Rescheck.analyze_cluster lr2 = some sr2 ∧
        sr2.compute.cores_available = sr.compute.cores_available ∧
        sr2.compute.cores_assigned = sr.compute.cores_assigned ∧
        sr2.compute.memory_available_mb = sr.compute.memory_available_mb ∧
        sr2.compute.memory_assigned_mb = sr.compute.memory_assigned_mb ∧
        sr2.gpu.cpu_cores_available = sr.gpu.cpu_cores_available ∧
        sr2.gpu.cpu_cores_assigned = sr.gpu.cpu_cores_assigned ∧
        sr2.gpu.gpu_devices_available = sr.gpu.gpu_devices_available ∧
        sr2.gpu.gpu_devices_assigned = sr.gpu.gpu_devices_assigned ∧
        sr2.gpu.memory_available_mb = sr.gpu.memory_available_mb ∧
        sr2.gpu.memory_assigned_mb = sr.gpu.memory_assigned_mb ∧
        sr2.compute.unique_jobs.card = sr.compute.unique_jobs.card ∧
        sr2.gpu.unique_jobs.card = sr.gpu.unique_jobs.card)) := by
  constructor
  · intro h
    obtain ⟨e1, e2, e3, e4, e5, e6, e7, e8, e9, e10, e11, e12⟩ :=
      Clusterstats.cs_analyze_spec lc sc h
    refine ⟨⟨e1, e2, e3, e4, e6, e7, e8, e9, e10, e11⟩, ?_⟩
    intro lc2 hp
    have hall : ∀ n ∈ lc2, (Clusterstats.analyze_step initStats n).isSome = true :=
      fun n hn => (Clusterstats.cs_analyze_isSome lc).mp (by rw [h]; rfl) n (hp.mem_iff.mpr hn)
    obtain ⟨sc2, hsc2⟩ :=
      Option.isSome_iff_exists.mp ((Clusterstats.cs_analyze_isSome lc2).mpr hall)
    obtain ⟨f1, f2, f3, f4, f5, f6, f7, f8, f9, f10, f11, f12⟩ :=
      Clusterstats.cs_analyze_spec lc2 sc2 hsc2
    have hpc := hp.filter Clusterstats.inComputePool
    have hpg := hp.filter Clusterstats.inGpuPool
    refine ⟨sc2, hsc2, ?_, ?_, ?_, ?_, ?_, ?_, ?_, ?_, ?_, ?_, ?_, ?_⟩
    · rw [f1, e1]; exact ((hpc.map Clusterstats.ncpusAvail).sum_eq).symm
    · rw [f2, e2]; exact ((hpc.map Clusterstats.ncpusAssigned).sum_eq).symm
    · rw [f3, e3]; exact ((hpc.map Clusterstats.memAvail).sum_eq).symm
    · rw [f4, e4]; exact ((hpc.map Clusterstats.memAssigned).sum_eq).symm
    · rw [f6, e6]; exact ((hpg.map Clusterstats.ncpusAvail).sum_eq).symm
    · rw [f7, e7]; exact ((hpg.map Clusterstats.ncpusAssigned).sum_eq).symm
    · rw [f8, e8]; exact ((hpg.map Clusterstats.ngpusAvail).sum_eq).symm
    · rw [f9, e9]; exact ((hpg.map Clusterstats.ngpusAssigned).sum_eq).symm
    · rw [f10, e10]; exact ((hpg.map Clusterstats.memAvail).sum_eq).symm
    · rw [f11, e11]; exact ((hpg.map Clusterstats.memAssigned).sum_eq).symm
    · rw [f5, e5, unionJobs_perm hpc]
    · rw [f12, e12, unionJobs_perm hpg]
  · intro h
    obtain ⟨e1, e2, e3, e4, e5, e6, e7, e8, e9, e10, e11, e12⟩ :=
      Rescheck.rs_analyze_spec lr sr h
    refine ⟨⟨e1, e2, e3, e4, e6, e7, e8, e9, e10, e11⟩, ?_⟩
    intro lr2 hp
    have hall : ∀ n ∈ lr2, (Rescheck.analyze_step initStats n).isSome = true :=
      fun n hn => (Rescheck.rs_analyze_isSome lr).mp (by rw [h]; rfl) n (hp.mem_iff.mpr hn)
    obtain ⟨sr2, hsr2⟩ :=
      Option.isSome_iff_exists.mp ((Rescheck.rs_analyze_isSome lr2).mpr hall)
    obtain ⟨f1, f2, f3, f4, f5, f6, f7, f8, f9, f10, f11, f12⟩ :=
      Rescheck.rs_analyze_spec lr2 sr2 hsr2
    have hpc := hp.filter Rescheck.inComputePool
    have hpg := hp.filter Rescheck.inGpuPool
    refine ⟨sr2, hsr2, ?_, ?_, ?_, ?_, ?_, ?_, ?_, ?_, ?_, ?_, ?_, ?_⟩
    · rw [f1, e1]; exact ((hpc.map Rescheck.ncpusAvail).sum_eq).symm
    · rw [f2, e2]; exact ((hpc.map Rescheck.ncpusAssigned).sum_eq).symm
    · rw [f3, e3]; exact ((hpc.map Rescheck.memAvail).sum_eq).symm
    · rw [f4, e4]; exact ((hpc.map Rescheck.memAssigned).sum_eq).symm
    · rw [f6, e6]; exact ((hpg.map Rescheck.ncpusAvail).sum_eq).symm
    · rw [f7, e7]; exact ((hpg.map Rescheck.ncpusAssigned).sum_eq).symm
    · rw [f8, e8]; exact ((hpg.map Rescheck.ngpusAvail).sum_eq).symm
    · rw [f9, e9]; exact ((hpg.map Rescheck.ngpusAssigned).sum_eq).symm
    · rw [f10, e10]; exact ((hpg.map Rescheck.memAvail).sum_eq).symm
    · rw [f11, e11]; exact ((hpg.map Rescheck.memAssigned).sum_eq).symm
    · rw [f5, e5, unionJobs_perm hpc]
    · rw [f12, e12, unionJobs_perm hpg]

/-- Witness for C4: one-node clusters evaluated concretely through both
aggregators. -/
theorem C4_witness :
    (Clusterstats.analyze_cluster [⟨ofStr "node01",
        [(ofStr "state", ofStr "free"),
         (ofStr "resources_available.vntype", ofStr "compute_vnode"),
         (ofStr "resources_available.Qlist", ofStr "smallq,classq"),
         (ofStr "resources_available.ncpus", ofStr "64"),
         (ofStr "resources_assigned.ncpus", ofStr "32")]⟩]).map
      (fun s => s.compute.cores_available) = some 64 ∧
    (Rescheck.analyze_cluster [⟨ofStr "g1",
        [(ofStr "state", ofStr "free"),
         (ofStr "resources_available.vntype", ofStr "compute_vnode"),
         (ofStr "resources_available.ncpus", ofStr "16")]⟩]).map
      (fun s => s.gpu.cpu_cores_available) = some 16 := by
  have hs1 : (Clusterstats.analyze_cluster [⟨ofStr "node01",
      [(ofStr "state", ofStr "free"),
       (ofStr "resources_available.vntype", ofStr "compute_vnode"),
       (ofStr "resources_available.Qlist", ofStr "smallq,classq"),
       (ofStr "resources_available.ncpus", ofStr "64"),
       (ofStr "resources_assigned.ncpus", ofStr "32")]⟩]).isSome = true := rfl
  have hs2 : (Rescheck.analyze_cluster [⟨ofStr "g1",
      [(ofStr "state", ofStr "free"),
       (ofStr "resources_available.vntype", ofStr "compute_vnode"),
       (ofStr "resources_available.ncpus", ofStr "16")]⟩]).isSome = true := rfl
  obtain ⟨sc, hc⟩ := Option.isSome_iff_exists.mp hs1
  obtain ⟨sr, hr⟩ := Option.isSome_iff_exists.mp hs2
  have h := C4_aggregation_additive [⟨ofStr "node01",
      [(ofStr "state", ofStr "free"),
       (ofStr "resources_available.vntype", ofStr "compute_vnode"),
       (ofStr "resources_available.Qlist", ofStr "smallq,classq"),
       (ofStr "resources_available.ncpus", ofStr "64"),
       (ofStr "resources_assigned.ncpus", ofStr "32")]⟩] sc
    [⟨ofStr "g1",
      [(ofStr "state", ofStr "free"),
       (ofStr "resources_available.vntype", ofStr "compute_vnode"),
       (ofStr "resources_available.ncpus", ofStr "16")]⟩] sr
  have h1 := (h.1 hc).1.1
  have h2 := (h.2 hr).1.2.2.2.2.1
  rw [hc, hr, Option.map_some', Option.map_some', h1, h2]
  exact ⟨by decide, by decide⟩
